import Mathlib

/-!
Verification of the Poliigon Blender addon download / asset-index core.

Shallow embedding of `modules/poliigon_core/api.py`,
`modules/poliigon_core/addon.py` and `modules/poliigon_core/asset_index.py`.
Pure parts are translated as Lean functions; filesystem state is passed as an
explicit map from paths to file sizes; concurrent inputs (HTTP streams,
completion polling, cancellation flags set by other threads) are passed as
explicit oracles.  The module `poliigon_core/assets.py` is not part of the
sources; everything taken from it is modelled from the specification and
marked as such in its doc comment.
-/

/-- Constants of api.py (lines 40-81). -/
def MAX_RETRIES_PER_FILE : Nat := 3

/-- api.py line 45. -/
def ERR_CONNECTION : String := "Connection error"

/-- api.py line 46. -/
def ERR_OS_NO_SPACE : String := "No space left on device"

/-- api.py line 47. -/
def ERR_OS_NO_PERMISSION : String := "Disk permission denied"

/-- api.py line 48. -/
def ERR_OS_WRITE : String := "Failed to write file"

/-- api.py line 54. -/
def ERR_USER_CANCEL_MSG : String := "User cancelled download"

/-- api.py line 58 (TIMEOUT = 20). -/
def ERR_TIMEOUT : String := "Connection timed out after 20 seconds"

/-- api.py line 64. -/
def ERR_MISSING_STREAM : String := "Requests response object missing from stream"

/-- api.py line 66. -/
def ERR_URL_EXPIRED : String := "Download URL expired"

/-- api.py line 67. -/
def ERR_FILESIZE_MISMATCH : String := "Download filesize mismatch"

/-- api.py line 81. -/
def DOWNLOAD_TEMP_SUFFIX : String := "dl"

/-- api.py lines 173-179: the FileDownload status state machine. -/
inductive DownloadStatus
  | INITIALIZED
  | WAITING
  | ONGOING
  | CANCELLED
  | DONE
  | ERROR
deriving DecidableEq

/-- api.py lines 182-204: one file download unit.  The `fut` handle, the
`duration` float and the per-unit lock are concurrency artefacts with no
data content and are not part of the embedding; all status mutations below
are the bodies of the lock-protected critical sections. -/
structure FileDownload where
  asset_id : Nat
  url : String
  filename : String
  size_expected : Nat
  size_downloaded : Nat := 0
  status : DownloadStatus := DownloadStatus.INITIALIZED
  directory : String := ""
  retries : Nat := MAX_RETRIES_PER_FILE
  error : Option String := none
deriving DecidableEq

/-- os.path.join with a relative second component. -/
def path_join (d f : String) : String := d ++ "/" ++ f

/-- api.py lines 200-204. -/
def FileDownload.get_filename (dl : FileDownload) (temp : Bool) : String :=
  if temp then dl.filename ++ DOWNLOAD_TEMP_SUFFIX else dl.filename

/-- api.py lines 197-198. -/
def FileDownload.get_path (dl : FileDownload) (temp : Bool) : String :=
  path_join dl.directory (dl.get_filename temp)

/-- api.py lines 206-212: cancellation does not overwrite the final states
DONE and ERROR. -/
def set_status_cancelled (s : DownloadStatus) : DownloadStatus :=
  let is_done := s = DownloadStatus.DONE
  let has_error := s = DownloadStatus.ERROR
  if ¬ is_done ∧ ¬ has_error then DownloadStatus.CANCELLED else s

/-- api.py lines 214-222: the WAITING to ONGOING transition; returns the new
status and the success flag (false and no state change iff the unit was
CANCELLED). -/
def set_status_ongoing (s : DownloadStatus) : DownloadStatus × Bool :=
  if s ≠ DownloadStatus.CANCELLED then (DownloadStatus.ONGOING, true)
  else (s, false)

/-- api.py lines 224-226: unconditional transition to ERROR. -/
def set_status_error (_ : DownloadStatus) : DownloadStatus :=
  DownloadStatus.ERROR

/-- api.py lines 228-230: unconditional transition to DONE. -/
def set_status_done (_ : DownloadStatus) : DownloadStatus :=
  DownloadStatus.DONE

/-- The filesystem, as a map from paths to file sizes in bytes;
`none` means the path does not exist. -/
def FS : Type := String → Option Nat

/-- Write a file of the given size (open(..) plus all chunk writes). -/
def fs_set (fs : FS) (p : String) (n : Nat) : FS :=
  fun q => if q = p then some n else fs q

/-- api.py lines 1211-1224 (delete_file): removing a non-existent path is a
no-op; exceptions of os.remove are deliberately silenced by the source, the
removal itself is modelled as succeeding. -/
def fs_delete (fs : FS) (p : String) : FS :=
  fun q => if q = p then none else fs q

/-- api.py lines 1205-1209. -/
def check_exist_and_finished (fs : FS) (path : String) (download : FileDownload) : Bool :=
  match fs path with
  | none => false
  | some n => n == download.size_expected

/-- api.py lines 139-155 (construct_error): the source serializes the three
components into a JSON error report; the embedding keeps them concatenated. -/
def construct_error (url response source : String) : String :=
  "construct_error(" ++ url ++ ", " ++ response ++ ", " ++ source ++ ")"

/-- Exceptions that the streaming loop of download_asset_file distinguishes
(api.py lines 1309-1341). -/
inductive StreamExc
  | connectionError
  | timeoutError
  | osError (errno : Nat)
  | otherExc (msg : String)
deriving DecidableEq

/-- errno.ENOSPC. -/
def ENOSPC : Nat := 28

/-- errno.EACCES. -/
def EACCES : Nat := 13

/-- Outcome of `_request_stream(download.url)` (api.py line 1255), the
response of the HTTP layer, which is an external collaborator:
`failed e` is a not-ok ApiResponse with error string `e`;
`missingStream` is an ok response without a "stream" in its body;
`stream len chunks exc` is a streaming handle reporting Content-Length
`len`, delivering the byte counts `chunks`, and raising the exception
`exc.2` right before chunk index `exc.1` (1-based) would be written. -/
inductive StreamResult
  | failed (errorName : String)
  | missingStream
  | stream (contentLength : Nat) (chunks : List Nat) (exc : Option (Nat × StreamExc))
deriving DecidableEq

/-- The streaming loop of api.py lines 1301-1308 on a chunk list: writes each
chunk, accumulates its length, then breaks if the unit has been cancelled.
`cancelAt = some k` models a concurrent set_status_cancelled becoming visible
after the k-th chunk write; `countStart` counts chunks already written.
Returns (bytes written, cancellation observed). -/
def stream_loop (cancelAt : Option Nat) : List Nat → Nat → Nat × Bool
  | [], _ => (0, false)
  | c :: rest, countStart =>
    let cnt := countStart + 1
    let cancelledNow : Bool := match cancelAt with
      | some k => decide (k ≤ cnt)
      | none => false
    if cancelledNow then (c, true)
    else
      let r := stream_loop cancelAt rest cnt
      (c + r.1, r.2)

/-- Result of download_asset_file: the new filesystem, the updated unit, the
ApiResponse ok flag and error, and whether an HTTP request was made. -/
structure DlFileResult where
  fs : FS
  download : FileDownload
  ok : Bool
  error : Option String
  usedNetwork : Bool

/-- api.py lines 1226-1368 (download_asset_file): stream download of a single
file.  `net` is the response of the HTTP layer for `download.url` and
`cancelAt` the concurrent-cancellation oracle of `stream_loop`. -/
def download_asset_file (fs : FS) (net : StreamResult) (cancelAt : Option Nat)
    (download : FileDownload) : DlFileResult :=
  let path_temp := download.get_path true
  let file_exists_temp := check_exist_and_finished fs path_temp download
  let path_final := download.get_path false
  let file_exists_final := check_exist_and_finished fs path_final download
  if file_exists_temp || file_exists_final then
    -- lines 1248-1253: already-done short circuit, no request is made
    { fs := fs
      download := { download with
        status := set_status_done download.status
        size_downloaded := download.size_expected }
      ok := true, error := none, usedNetwork := false }
  else
    match net with
    | StreamResult.failed errorName =>
      -- lines 1258-1271
      let err :=
        if errorName == ERR_URL_EXPIRED then errorName
        else construct_error download.url
          ("Received " ++ errorName ++ " error during download") download.filename
      { fs := fs
        download := { download with status := set_status_error download.status }
        ok := false, error := some err, usedNetwork := true }
    | StreamResult.missingStream =>
      -- lines 1272-1282
      { fs := fs
        download := { download with status := set_status_error download.status }
        ok := false
        error := some (construct_error download.url ERR_MISSING_STREAM download.filename)
        usedNetwork := true }
    | StreamResult.stream contentLength chunks exc =>
      -- lines 1284-1295: WAITING to ONGOING transition, abort on cancel race
      let go := set_status_ongoing download.status
      if ¬ go.2 then
        { fs := fs
          download := { download with status := go.1 }
          ok := false, error := some ERR_USER_CANCEL_MSG, usedNetwork := true }
      else
        -- lines 1297-1343: open path_temp and stream chunks into it
        let runExc : Option StreamExc :=
          match exc with
          | none => none
          | some ke =>
            -- the exception is only reached if no cancel break happens before
            if (stream_loop cancelAt (chunks.take (ke.1 - 1)) 0).2 then none
            else some ke.2
        match runExc with
        | some e =>
          -- lines 1309-1341: error classification, partial temp file deleted
          let errMsg :=
            match e with
            | StreamExc.connectionError => ERR_CONNECTION
            | StreamExc.timeoutError => ERR_TIMEOUT
            | StreamExc.osError errno =>
              if errno = ENOSPC then ERR_OS_NO_SPACE
              else if errno = EACCES then ERR_OS_NO_PERMISSION
              else "Download error for " ++ toString download.asset_id ++ " - " ++ ERR_OS_WRITE
            | StreamExc.otherExc msg =>
              construct_error download.url
                ("Streaming error during download of " ++
                  toString download.asset_id ++ " (" ++ msg ++ ")")
                download.filename
          let written := (stream_loop cancelAt (chunks.take ((exc.map Prod.fst).getD 0 - 1)) 0).1
          { fs := fs_delete (fs_set fs path_temp written) path_temp
            download := { download with
              status := set_status_error DownloadStatus.ONGOING
              size_downloaded := written }
            ok := false, error := some errMsg, usedNetwork := true }
        | none =>
          let run := stream_loop cancelAt chunks 0
          let written := run.1
          let statusAfter :=
            if run.2 then DownloadStatus.CANCELLED else DownloadStatus.ONGOING
          if download.size_expected = written ∧ written = contentLength then
            -- lines 1345-1349: success, the temp file keeps its dl suffix
            { fs := fs_set fs path_temp written
              download := { download with
                status := set_status_done statusAfter
                size_downloaded := written }
              ok := true, error := none, usedNetwork := true }
          else
            -- lines 1350-1362: cancellation or size mismatch, delete temp
            let msg :=
              if statusAfter = DownloadStatus.CANCELLED then ERR_USER_CANCEL_MSG
              else ERR_FILESIZE_MISMATCH
            { fs := fs_delete (fs_set fs path_temp written) path_temp
              download := { download with
                status := set_status_error statusAfter
                size_downloaded := written }
              ok := false, error := some msg, usedNetwork := true }

/-- Stable insertion of `x` into a list sorted ascending by `key`
(before the first element of equal or larger key). -/
def insert_sorted {α : Type} (key : α → Nat) (x : α) : List α → List α
  | [] => [x]
  | y :: ys => if key x ≤ key y then x :: y :: ys else y :: insert_sorted key x ys

/-- Stable ascending sort by `key`; models Python list.sort(key=...). -/
def sort_by_key {α : Type} (key : α → Nat) : List α → List α
  | [] => []
  | x :: xs => insert_sorted key x (sort_by_key key xs)

/-- addon.py lines 936-957 (schedule_downloads): sorts the download list by
ascending expected size, assigns each unit the target directory, marks it
WAITING and submits it to the worker pool (the submission handle `fut` is
the asynchronous execution unit and is elided). -/
def schedule_downloads (directory : String) (dl_list : List FileDownload) :
    List FileDownload :=
  (sort_by_key (fun dl => dl.size_expected) dl_list).map
    (fun download =>
      { download with directory := directory, status := DownloadStatus.WAITING })

/-- C1, counterexample: set_status_ongoing called on a unit whose status is
DONE moves the status to ONGOING and reports success, so a subsequent
operation can change a DONE status to ONGOING. -/
theorem terminal_status_overwritten_by_ongoing :
    set_status_ongoing DownloadStatus.DONE = (DownloadStatus.ONGOING, true) := by
  decide

/-- C1 (amended): once a FileDownload status is DONE or ERROR,
set_status_cancelled leaves it unchanged (a cancellation request arriving
after DONE or ERROR is ignored) and set_status_done / set_status_error keep
it inside the final-state set; however set_status_ongoing overwrites it
with ONGOING, and re-submission via schedule_downloads resets every unit
status to WAITING. -/
theorem terminal_status_amended (s : DownloadStatus)
    (h : s = DownloadStatus.DONE ∨ s = DownloadStatus.ERROR) :
    set_status_cancelled s = s ∧
    set_status_done s = DownloadStatus.DONE ∧
    set_status_error s = DownloadStatus.ERROR ∧
    (set_status_ongoing s).1 = DownloadStatus.ONGOING ∧
    (∀ (directory : String) (l : List FileDownload) (dl : FileDownload),
      dl ∈ schedule_downloads directory l → dl.status = DownloadStatus.WAITING) := by
  refine ⟨?_, rfl, rfl, ?_, ?_⟩
  · rcases h with h | h <;> subst h <;> rfl
  · rcases h with h | h <;> subst h <;> rfl
  · intro directory l dl hmem
    simp only [schedule_downloads, List.mem_map] at hmem
    obtain ⟨d0, _, hd0⟩ := hmem
    subst hd0
    rfl

/-- C1, witness for the amended theorem at s = DONE. -/
theorem terminal_status_amended_witness :
    set_status_cancelled DownloadStatus.DONE = DownloadStatus.DONE ∧
    set_status_done DownloadStatus.DONE = DownloadStatus.DONE ∧
    set_status_error DownloadStatus.DONE = DownloadStatus.ERROR ∧
    (set_status_ongoing DownloadStatus.DONE).1 = DownloadStatus.ONGOING ∧
    (∀ (directory : String) (l : List FileDownload) (dl : FileDownload),
      dl ∈ schedule_downloads directory l → dl.status = DownloadStatus.WAITING) :=
  terminal_status_amended DownloadStatus.DONE (Or.inl rfl)

/-- C4: download_asset_file is idempotent on already-complete files: if the
final path or the dl-suffixed temp path already holds a file of exactly
size_expected bytes, the unit is marked DONE with size_downloaded equal to
size_expected, the call reports success, makes no HTTP request, and leaves
the filesystem untouched. -/
theorem download_asset_file_idempotent (fs : FS) (net : StreamResult)
    (cancelAt : Option Nat) (download : FileDownload)
    (h : check_exist_and_finished fs (download.get_path true) download = true ∨
         check_exist_and_finished fs (download.get_path false) download = true) :
    (download_asset_file fs net cancelAt download).ok = true ∧
    (download_asset_file fs net cancelAt download).download.status = DownloadStatus.DONE ∧
    (download_asset_file fs net cancelAt download).download.size_downloaded =
      download.size_expected ∧
    (download_asset_file fs net cancelAt download).usedNetwork = false ∧
    (download_asset_file fs net cancelAt download).fs = fs := by
  unfold download_asset_file
  rcases h with h | h <;>
    simp [h, set_status_done]

/-- C4, witness: a concrete unit whose final file already exists at the
expected size. -/
theorem download_asset_file_idempotent_witness :
    (check_exist_and_finished (fs_set (fun _ => none) "lib/A/f.jpg" 5)
        (FileDownload.get_path
          { asset_id := 1, url := "u", filename := "f.jpg", size_expected := 5,
            directory := "lib/A", status := DownloadStatus.WAITING } true)
        { asset_id := 1, url := "u", filename := "f.jpg", size_expected := 5,
          directory := "lib/A", status := DownloadStatus.WAITING } = true ∨
      check_exist_and_finished (fs_set (fun _ => none) "lib/A/f.jpg" 5)
        (FileDownload.get_path
          { asset_id := 1, url := "u", filename := "f.jpg", size_expected := 5,
            directory := "lib/A", status := DownloadStatus.WAITING } false)
        { asset_id := 1, url := "u", filename := "f.jpg", size_expected := 5,
          directory := "lib/A", status := DownloadStatus.WAITING } = true) ∧
    (download_asset_file (fs_set (fun _ => none) "lib/A/f.jpg" 5)
      (StreamResult.stream 5 [5] none) none
      { asset_id := 1, url := "u", filename := "f.jpg", size_expected := 5,
        directory := "lib/A", status := DownloadStatus.WAITING }).ok = true ∧
    (download_asset_file (fs_set (fun _ => none) "lib/A/f.jpg" 5)
      (StreamResult.stream 5 [5] none) none
      { asset_id := 1, url := "u", filename := "f.jpg", size_expected := 5,
        directory := "lib/A", status := DownloadStatus.WAITING }).download.status =
      DownloadStatus.DONE := by
  have h : check_exist_and_finished (fs_set (fun _ => none) "lib/A/f.jpg" 5)
      (FileDownload.get_path
        { asset_id := 1, url := "u", filename := "f.jpg", size_expected := 5,
          directory := "lib/A", status := DownloadStatus.WAITING } false)
      { asset_id := 1, url := "u", filename := "f.jpg", size_expected := 5,
        directory := "lib/A", status := DownloadStatus.WAITING } = true := by decide
  have hmain := download_asset_file_idempotent
    (fs_set (fun _ => none) "lib/A/f.jpg" 5) (StreamResult.stream 5 [5] none) none
    { asset_id := 1, url := "u", filename := "f.jpg", size_expected := 5,
      directory := "lib/A", status := DownloadStatus.WAITING } (Or.inr h)
  exact ⟨Or.inr h, hmain.1, hmain.2.1⟩

/-- Deleting a path removes it. -/
theorem fs_delete_self (fs : FS) (p : String) : fs_delete fs p p = none := by
  simp [fs_delete]

/-- C7: when the streaming loop of download_asset_file completes (stream
request succeeded, unit not cancelled before the WAITING to ONGOING
transition, no exception raised, and no already-complete file short
circuit), the unit is marked DONE exactly when the bytes written equal both
size_expected and the server-reported Content-Length; on any mismatch the
unit is marked ERROR, the partial dl-suffixed temp file is deleted and an
error result is returned whose message distinguishes a user cancellation
observed mid-stream from a filesize mismatch. -/
theorem download_asset_file_verifies_size (fs : FS) (contentLength : Nat)
    (chunks : List Nat) (cancelAt : Option Nat) (download : FileDownload)
    (hnt : check_exist_and_finished fs (download.get_path true) download = false)
    (hnf : check_exist_and_finished fs (download.get_path false) download = false)
    (hst : download.status ≠ DownloadStatus.CANCELLED) :
    ((download_asset_file fs (StreamResult.stream contentLength chunks none)
        cancelAt download).download.status = DownloadStatus.DONE ↔
      (download.size_expected = (stream_loop cancelAt chunks 0).1 ∧
        (stream_loop cancelAt chunks 0).1 = contentLength)) ∧
    (¬ (download.size_expected = (stream_loop cancelAt chunks 0).1 ∧
        (stream_loop cancelAt chunks 0).1 = contentLength) →
      (download_asset_file fs (StreamResult.stream contentLength chunks none)
          cancelAt download).download.status = DownloadStatus.ERROR ∧
      (download_asset_file fs (StreamResult.stream contentLength chunks none)
          cancelAt download).ok = false ∧
      (download_asset_file fs (StreamResult.stream contentLength chunks none)
          cancelAt download).fs (download.get_path true) = none ∧
      (download_asset_file fs (StreamResult.stream contentLength chunks none)
          cancelAt download).error = some
        (if (stream_loop cancelAt chunks 0).2 then ERR_USER_CANCEL_MSG
         else ERR_FILESIZE_MISMATCH)) := by
  unfold download_asset_file
  simp only [hnt, hnf, Bool.or_self, Bool.false_eq_true, if_false]
  simp only [set_status_ongoing, if_pos hst]
  by_cases hsz : download.size_expected = (stream_loop cancelAt chunks 0).1 ∧
      (stream_loop cancelAt chunks 0).1 = contentLength
  · simp [hsz, set_status_done]
  · cases h2 : (stream_loop cancelAt chunks 0).2 <;>
      simp [hsz, h2, set_status_error, fs_delete]

/-- C7, witness: a two-chunk stream whose total differs from size_expected:
the unit ends in ERROR with the filesize-mismatch message and the temp file
is gone. -/
theorem download_asset_file_verifies_size_witness :
    (check_exist_and_finished (fun _ => none)
      (FileDownload.get_path
        { asset_id := 1, url := "u", filename := "f.jpg", size_expected := 9,
          directory := "lib/A", status := DownloadStatus.WAITING } true)
      { asset_id := 1, url := "u", filename := "f.jpg", size_expected := 9,
        directory := "lib/A", status := DownloadStatus.WAITING } = false) ∧
    ((download_asset_file (fun _ => none) (StreamResult.stream 5 [3, 2] none) none
        { asset_id := 1, url := "u", filename := "f.jpg", size_expected := 9,
          directory := "lib/A", status := DownloadStatus.WAITING }).download.status =
      DownloadStatus.DONE ↔
      ((9 : Nat) = (stream_loop none [3, 2] 0).1 ∧
        (stream_loop none [3, 2] 0).1 = 5)) := by
  have hmain := download_asset_file_verifies_size (fun _ => none) 5 [3, 2] none
    { asset_id := 1, url := "u", filename := "f.jpg", size_expected := 9,
      directory := "lib/A", status := DownloadStatus.WAITING }
    (by decide) (by decide) (by decide)
  exact ⟨by decide, hmain.1⟩

/-- Modelled from the spec: the closed, ordered size vocabulary `SIZES` of
the missing assets module, smallest first (the source comment at addon.py
line 892 documents the reversed order as WM, HIRES, 18K, ..., 1K; the spec
glossary names "2K", "4K", "HIRES" as size tags). -/
def SIZES : List String :=
  ["1K", "2K", "3K", "4K", "6K", "8K", "12K", "16K", "18K", "HIRES", "WM"]

/-- addon.py lines 886-904: the size-selection slice of get_download_data.
`sizes` is the nominally requested size list (a singleton when a size was
passed in), `sizes_data` the sizes available for the asset.  Returns the
requested sizes that are available; if none, the first size of the reversed
full ordering that is available; if still none, the minimum size `SIZES[0]`
together with a warning flag (the source logs "Missing sizes for download!
Setting size to minimum value."). -/
def get_download_data_sizes (sizes_data : List String) (sizes : List String) :
    List String × Bool :=
  let chosen := sizes.filter (fun s => sizes_data.contains s)
  if chosen.length ≠ 0 then (chosen, false)
  else
    match SIZES.reverse.find? (fun s => sizes_data.contains s) with
    | some s => ([s], false)
    | none => ([SIZES.headI], true)

/-- find? returns the first match: the returned element satisfies the
predicate and everything before it fails it. -/
theorem find?_first {α : Type} (p : α → Bool) :
    ∀ (l : List α) (a : α), l.find? p = some a →
      p a = true ∧ ∃ l1 l2, l = l1 ++ a :: l2 ∧ ∀ x ∈ l1, p x = false := by
  intro l
  induction l with
  | nil => intro a h; simp at h
  | cons x xs ih =>
    intro a h
    by_cases hx : p x = true
    · rw [List.find?_cons_of_pos _ hx] at h
      cases h
      exact ⟨hx, [], xs, rfl, by simp⟩
    · rw [List.find?_cons_of_neg _ (by simpa using hx)] at h
      obtain ⟨hpa, l1, l2, heq, hfail⟩ := ih a h
      refine ⟨hpa, x :: l1, l2, by simp [heq], ?_⟩
      intro y hy
      rcases List.mem_cons.mp hy with hy | hy
      · subst hy; simpa using hx
      · exact hfail y hy

/-- C3, counterexample: with available sizes ["HUGE"] (no overlap with the
size vocabulary) and request "8K", the fallback chooses "1K" — the minimum
of the global size ordering — with a warning, and "1K" is not among the
available sizes, so the result is not the smallest available size as the
claim states. -/
theorem size_fallback_counterexample :
    get_download_data_sizes ["HUGE"] ["8K"] = (["1K"], true) ∧
    (("1K" : String) ∈ (["HUGE"] : List String) → False) := by
  constructor
  · rfl
  · intro h; simp at h

/-- C3 (amended): if the requested size is not available, the download
specification takes the first size of the full size ordering scanned from
largest to smallest that is available (so for available sizes
[1K, 2K, 4K] and request 8K the result is exactly [4K]); if that scan also
finds no match, the specification falls back to the smallest size of the
full size ordering, SIZES[0] = 1K (which is then not an available size),
emitting a warning. -/
theorem size_fallback_amended (sizes_data : List String) (size : String)
    (h : size ∉ sizes_data) :
    (∀ s, SIZES.reverse.find? (fun t => sizes_data.contains t) = some s →
        get_download_data_sizes sizes_data [size] = ([s], false) ∧
        sizes_data.contains s = true ∧
        ∃ (l1 l2 : List String), SIZES = l2.reverse ++ s :: l1.reverse ∧
          ∀ t ∈ l1, sizes_data.contains t = false) ∧
    (SIZES.reverse.find? (fun t => sizes_data.contains t) = none →
        get_download_data_sizes sizes_data [size] = (["1K"], true)) ∧
    get_download_data_sizes ["1K", "2K", "4K"] ["8K"] = (["4K"], false) := by
  have hempty : [size].filter (fun s => sizes_data.contains s) = [] := by
    simp [h]
  refine ⟨?_, ?_, by rfl⟩
  · intro s hfind
    obtain ⟨hps, l1, l2, heq, hfail⟩ := find?_first _ _ _ hfind
    refine ⟨?_, hps, l1, l2, ?_, hfail⟩
    · unfold get_download_data_sizes
      rw [hempty, if_neg (by simp), hfind]
    · calc SIZES = SIZES.reverse.reverse := (List.reverse_reverse _).symm
        _ = (l1 ++ s :: l2).reverse := by rw [heq]
        _ = l2.reverse ++ s :: l1.reverse := by simp
  · intro hnone
    unfold get_download_data_sizes
    rw [hempty, if_neg (by simp), hnone]
    rfl

/-- C3, witness for the amended theorem with available sizes [1K, 2K, 4K]
and requested size 8K (the scan finds 4K). -/
theorem size_fallback_amended_witness :
    ("8K" ∉ (["1K", "2K", "4K"] : List String)) ∧
    ((∀ s, SIZES.reverse.find? (fun t => (["1K", "2K", "4K"] : List String).contains t) = some s →
        get_download_data_sizes ["1K", "2K", "4K"] ["8K"] = ([s], false) ∧
        (["1K", "2K", "4K"] : List String).contains s = true ∧
        ∃ (l1 l2 : List String), SIZES = l2.reverse ++ s :: l1.reverse ∧
          ∀ t ∈ l1, (["1K", "2K", "4K"] : List String).contains t = false) ∧
      (SIZES.reverse.find? (fun t => (["1K", "2K", "4K"] : List String).contains t) = none →
        get_download_data_sizes ["1K", "2K", "4K"] ["8K"] = (["1K"], true)) ∧
      get_download_data_sizes ["1K", "2K", "4K"] ["8K"] = (["4K"], false)) :=
  ⟨by decide, size_fallback_amended ["1K", "2K", "4K"] "8K" (by decide)⟩

/-- Modelled from the spec (section 3): the asset type enum of the missing
assets module (Texture, Model, HDRI, Brush) plus the historical SUBSTANCE
type that construct_asset rejects. -/
inductive AssetType
  | BRUSH
  | HDRI
  | MODEL
  | TEXTURE
  | SUBSTANCE
deriving DecidableEq

/-- Modelled from the spec (section 6): DCC mesh formats of ModelMesh, as
dispatched in asset_index.py lines 590-613. -/
inductive ModelType
  | FBX
  | BLEND
  | C4D
  | MAX
deriving DecidableEq

/-- Modelled from the spec (section 3, TextureMap): one concrete on-disk
texture map file; map types are kept as their code strings. -/
structure TextureMap where
  map_type : String
  size : Option String := none
  variant : Option String := none
  lod : Option String := none
  filename : String
  directory : String
deriving DecidableEq

/-- Modelled from the spec (section 3, ModelMesh): one concrete on-disk mesh
file. -/
structure ModelMesh where
  model_type : ModelType
  lod : Option String := none
  filename : String
  directory : String
deriving DecidableEq

/-- Modelled from the spec (sections 3 and 4.4): the Texture payload with its
workflow-keyed concrete file listing and available sizes. -/
structure Texture where
  maps : List (String × List TextureMap) := []
  sizes : List String := []
deriving DecidableEq

/-- Modelled from the spec: the Model payload (meshes, bundled textures,
available sizes and LODs). -/
structure Model where
  meshes : List ModelMesh := []
  texture : Option Texture := none
  sizes : List String := []
  lods : List String := []
deriving DecidableEq

/-- Modelled from the spec: the HDRI payload, a background and a light
texture (asset_index.py lines 693-720). -/
structure Hdri where
  bg : Texture := {}
  light : Texture := {}
deriving DecidableEq

/-- Modelled from the spec: the Brush payload, an alpha texture
(asset_index.py lines 673-691). -/
structure Brush where
  alpha : Texture := {}
deriving DecidableEq

/-- Modelled from the spec (section 3, AssetData): the per-asset aggregate,
restricted to identity, purchase/local state and the type-specific payload
(display metadata carries no claim content). -/
structure AssetData where
  asset_id : Nat
  asset_type : AssetType
  asset_name : String
  is_local : Option Bool := none
  is_purchased : Option Bool := none
  texture : Option Texture := none
  model : Option Model := none
  hdri : Option Hdri := none
  brush : Option Brush := none
deriving DecidableEq

/-- Modelled from the spec: get_size_list of a type payload; WM
(watermarked) sizes are listed only on request. -/
def size_list_of (sizes : List String) (incl_watermarked : Bool) : List String :=
  if incl_watermarked then sizes else sizes.filter (fun s => s ≠ "WM")

/-- Modelled from the spec: the type payload sizes read by get_size_list,
dispatching on the asset type like assets.AssetData.get_type_data. -/
def AssetData.type_sizes (ad : AssetData) : List String :=
  match ad.asset_type with
  | AssetType.TEXTURE => (ad.texture.getD {}).sizes
  | AssetType.MODEL => (ad.model.getD {}).sizes
  | AssetType.HDRI => (ad.hdri.getD {}).bg.sizes
  | AssetType.BRUSH => (ad.brush.getD {}).alpha.sizes
  | AssetType.SUBSTANCE => []

/-- Modelled from the spec: get_size_list of the missing assets module. -/
def AssetData.get_size_list (ad : AssetData) (incl_watermarked : Bool) : List String :=
  size_list_of ad.type_sizes incl_watermarked

/-- Modelled from the spec: get_maps of a Texture payload, the stored maps
of the given workflow restricted to the given size. -/
def Texture.get_maps (tex : Texture) (workflow size : String) : List TextureMap :=
  ((List.lookup workflow tex.maps).getD []).filter (fun m => m.size == some size)

/-- Modelled from the spec: the per-workflow, per-size concrete maps of an
asset, dispatching on the asset type (HDRI counts background and light). -/
def AssetData.get_maps (ad : AssetData) (workflow size : String) : List TextureMap :=
  match ad.asset_type with
  | AssetType.TEXTURE => (ad.texture.getD {}).get_maps workflow size
  | AssetType.MODEL => ((ad.model.getD {}).texture.getD {}).get_maps workflow size
  | AssetType.HDRI =>
    (ad.hdri.getD {}).bg.get_maps workflow size ++
      (ad.hdri.getD {}).light.get_maps workflow size
  | AssetType.BRUSH => (ad.brush.getD {}).alpha.get_maps workflow size
  | AssetType.SUBSTANCE => []

/-- Modelled from the spec: get_workflow_list, the workflows under which
concrete maps are stored. -/
def AssetData.get_workflow_list (ad : AssetData) : List String :=
  match ad.asset_type with
  | AssetType.TEXTURE => (ad.texture.getD {}).maps.map Prod.fst
  | AssetType.MODEL => ((ad.model.getD {}).texture.getD {}).maps.map Prod.fst
  | AssetType.HDRI =>
    (ad.hdri.getD {}).bg.maps.map Prod.fst ++
      (ad.hdri.getD {}).light.maps.map Prod.fst
  | AssetType.BRUSH => (ad.brush.getD {}).alpha.maps.map Prod.fst
  | AssetType.SUBSTANCE => []

/-- Modelled from the spec: get_mesh of the Model payload, the stored meshes
matching the given LOD and mesh format (None matches any). -/
def Model.get_mesh (m : Model) (lod : Option String) (model_type : Option ModelType) :
    List ModelMesh :=
  m.meshes.filter (fun mesh =>
    (match lod with
      | none => true
      | some l => mesh.lod == some l) &&
    (match model_type with
      | none => true
      | some t => mesh.model_type == t))

/-- Modelled from the spec (section 4.4): has_mesh of the Model payload; for
native-mesh checks a mesh of the specific DCC format must be present,
otherwise any stored mesh counts. -/
def Model.has_mesh (m : Model) (model_type : Option ModelType) (native_only : Bool) :
    Bool :=
  if native_only then
    match model_type with
    | some t => m.meshes.any (fun mesh => mesh.model_type == t)
    | none => false
  else
    ¬ m.meshes.isEmpty

/-- The local asset index (asset_index.py lines 42-71): the in-memory map
from asset id to AssetData as an association list in insertion order, plus
the cache path.  The cached-query map carries no content for the claims
under verification. -/
structure AssetIndex where
  path_cache : String := ""
  all_assets : List (Nat × AssetData) := []
deriving DecidableEq

/-- asset_index.py lines 1186-1193 (get_asset_workflow_list). -/
def AssetIndex.get_asset_workflow_list (idx : AssetIndex) (asset_id : Nat) :
    Option (List String) :=
  match List.lookup asset_id idx.all_assets with
  | none => none
  | some asset_data => some asset_data.get_workflow_list

/-- asset_index.py lines 1377-1412 (check_asset_local_sizes): texture
locality by size, as an association list mirroring the returned dict. -/
def AssetIndex.check_asset_local_sizes (idx : AssetIndex) (asset_id : Nat)
    (workflow : Option String) (incl_watermarked : Bool) : List (String × Bool) :=
  match List.lookup asset_id idx.all_assets with
  | none => []
  | some asset_data =>
    (asset_data.get_size_list incl_watermarked).map (fun size =>
      match workflow with
      | none =>
        (size, ((idx.get_asset_workflow_list asset_id).getD []).any
          (fun workflow_check => ¬ (asset_data.get_maps workflow_check size).isEmpty))
      | some w => (size, ¬ (asset_data.get_maps w size).isEmpty))

/-- asset_index.py lines 1414-1459 (check_asset_local_lods): mesh locality
by LOD, as an association list mirroring the returned dict. -/
def AssetIndex.check_asset_local_lods (idx : AssetIndex) (asset_id : Nat)
    (model_type : Option ModelType) (native_only : Bool) : List (String × Bool) :=
  match List.lookup asset_id idx.all_assets with
  | none => []
  | some asset_data =>
    if asset_data.asset_type ≠ AssetType.MODEL then []
    else
      let model_data := asset_data.model.getD {}
      model_data.lods.map (fun lod =>
        let meshes_fbx := model_data.get_mesh (some lod) (some ModelType.FBX)
        let meshes_native :=
          match model_type with
          | some _ => model_data.get_mesh (some lod) model_type
          | none => []
        if native_only then (lod, ¬ meshes_native.isEmpty)
        else (lod, ¬ meshes_fbx.isEmpty || ¬ meshes_native.isEmpty))

/-- asset_index.py lines 1308-1360 (check_asset_is_local).  The result is an
Option Bool because with all filters at None the source returns the
tri-state is_local attribute unchanged; the asset-missing branch is the
caught KeyError of lines 1325-1330, which reports and returns False. -/
def AssetIndex.check_asset_is_local (idx : AssetIndex) (asset_id : Nat)
    (workflow : Option String) (size : Option String) (lod : Option String)
    (model_type : Option ModelType) (native_only : Bool) : Option Bool :=
  match List.lookup asset_id idx.all_assets with
  | none => some false
  | some asset_data =>
    let mesh_is_local :=
      if asset_data.asset_type = AssetType.MODEL then
        (asset_data.model.getD {}).has_mesh model_type native_only
      else true
    if workflow = none ∧ size = none ∧ lod = none ∧ model_type = none then
      asset_data.is_local
    else
      let incl_watermarked := size == some "WM"
      let local_sizes := idx.check_asset_local_sizes asset_id workflow incl_watermarked
      let tex_is_local :=
        match size with
        | none => local_sizes.any (fun p => p.2)
        | some s => (List.lookup s local_sizes).getD false
      if asset_data.asset_type ≠ AssetType.MODEL then some tex_is_local
      else
        let local_lods := idx.check_asset_local_lods asset_id model_type native_only
        let lod_is_local :=
          match lod with
          | none => local_lods.any (fun p => p.2)
          | some l => (List.lookup l local_lods).getD false
        some (tex_is_local && lod_is_local && mesh_is_local)

/-- C10: check_asset_is_local is total over asset ids: for an asset_id not
in the index and any combination of workflow, size, lod, model_type and
native_only filters, it returns False (the KeyError of the lookup is caught
and reported, lines 1325-1330) instead of raising. -/
theorem check_asset_is_local_total (idx : AssetIndex) (asset_id : Nat)
    (h : List.lookup asset_id idx.all_assets = none) :
    ∀ (workflow size lod : Option String) (model_type : Option ModelType)
      (native_only : Bool),
      idx.check_asset_is_local asset_id workflow size lod model_type native_only =
        some false := by
  intro workflow size lod model_type native_only
  unfold AssetIndex.check_asset_is_local
  rw [h]

/-- C10, witness: the empty index at asset id 42 with concrete filters. -/
theorem check_asset_is_local_total_witness :
    List.lookup 42 (AssetIndex.all_assets {}) = none ∧
    AssetIndex.check_asset_is_local {} 42 (some "REGULAR") (some "4K")
      (some "LOD1") (some ModelType.FBX) false = some false :=
  ⟨rfl, check_asset_is_local_total {} 42 rfl (some "REGULAR") (some "4K")
    (some "LOD1") (some ModelType.FBX) false⟩

/-- Replace the value stored under `k` (insertion order preserved, like a
Python dict item assignment for an existing key). -/
def alist_replace {α : Type} (l : List (Nat × α)) (k : Nat) (v : α) :
    List (Nat × α) :=
  l.map (fun kv => if kv.1 = k then (k, v) else kv)

/-- Modelled from the spec (section 4.4): merging one workflow's concrete
map list during an AssetData update — a new entry replaces the old entry of
the same filename, other old entries are preserved, and entirely new
filenames are appended (update_from_directory overwrites file reference
entries, asset_index.py lines 904-905). -/
def merge_maps (old new : List TextureMap) : List TextureMap :=
  (old.map (fun m =>
    match new.find? (fun n => n.filename == m.filename) with
    | some n => n
    | none => m)) ++
  new.filter (fun n => ¬ old.any (fun m => m.filename == n.filename))

/-- Modelled from the spec: merging the workflow-keyed map listings of a
Texture payload during an AssetData update. -/
def merge_workflow_maps (old new : List (String × List TextureMap)) :
    List (String × List TextureMap) :=
  (old.map (fun wk =>
    match List.lookup wk.1 new with
    | some nl => (wk.1, merge_maps wk.2 nl)
    | none => wk)) ++
  new.filter (fun wk => (List.lookup wk.1 old).isNone)

/-- Modelled from the spec (section 3): Texture.update — file listings merge
per filename (or are replaced wholesale when purge_maps is set), a
specified (non-empty) size list overwrites, an unspecified one is
preserved. -/
def Texture.update (old new : Texture) (purge_maps : Bool) : Texture :=
  { maps := if purge_maps then new.maps else merge_workflow_maps old.maps new.maps
    sizes := if new.sizes.isEmpty then old.sizes else new.sizes }

/-- Modelled from the spec: Model.update, analogous to Texture.update with
meshes merged per filename. -/
def Model.update (old new : Model) (purge_maps : Bool) : Model :=
  { meshes :=
      (old.meshes.map (fun m =>
        match new.meshes.find? (fun n => n.filename == m.filename) with
        | some n => n
        | none => m)) ++
      new.meshes.filter (fun n => ¬ old.meshes.any (fun m => m.filename == n.filename))
    texture :=
      match new.texture, old.texture with
      | some nt, some ot => some (Texture.update ot nt purge_maps)
      | some nt, none => some nt
      | none, t => t
    sizes := if new.sizes.isEmpty then old.sizes else new.sizes
    lods := if new.lods.isEmpty then old.lods else new.lods }

/-- Modelled from the spec (section 3): AssetData.update — any non-None
entry of the new snapshot overwrites the old one, unspecified fields are
preserved, and the type-specific file listings are merged as above. -/
def AssetData.update (old new : AssetData) (purge_maps : Bool) : AssetData :=
  { old with
    is_local := match new.is_local with
      | some b => some b
      | none => old.is_local
    is_purchased := match new.is_purchased with
      | some b => some b
      | none => old.is_purchased
    texture := match new.texture, old.texture with
      | some nt, some ot => some (Texture.update ot nt purge_maps)
      | some nt, none => some nt
      | none, t => t
    model := match new.model, old.model with
      | some nm, some om => some (Model.update om nm purge_maps)
      | some nm, none => some nm
      | none, m => m
    hdri := match new.hdri, old.hdri with
      | some nh, some oh =>
        some { bg := Texture.update oh.bg nh.bg purge_maps
               light := Texture.update oh.light nh.light purge_maps }
      | some nh, none => some nh
      | none, h => h
    brush := match new.brush, old.brush with
      | some nb, some ob => some { alpha := Texture.update ob.alpha nb.alpha purge_maps }
      | some nb, none => some nb
      | none, b => b }

/-- asset_index.py lines 395-426 (update_asset): an update that would rebind
asset_id, asset_name or asset_type raises ValueError (modelled as
Except.error) before AssetData.update runs; an id not in the index is a
silent no-op. -/
def AssetIndex.update_asset (idx : AssetIndex) (asset_id : Nat)
    (asset_data_new : AssetData) (purge_maps : Bool) : Except String AssetIndex :=
  match List.lookup asset_id idx.all_assets with
  | none => Except.ok idx
  | some asset_data =>
    if asset_id ≠ asset_data_new.asset_id then
      Except.error ("Cannot change asset ID (" ++ toString asset_id ++ " to " ++
        toString asset_data_new.asset_id ++ ")!")
    else if asset_data.asset_name ≠ asset_data_new.asset_name then
      Except.error ("Cannot change asset name (" ++ asset_data.asset_name ++ " to " ++
        asset_data_new.asset_name ++ ")!")
    else if asset_data.asset_type ≠ asset_data_new.asset_type then
      Except.error "Cannot change asset type!"
    else
      Except.ok { idx with
        all_assets := alist_replace idx.all_assets asset_id
          (AssetData.update asset_data asset_data_new purge_maps) }

/-- C9: for an asset_id stored in the index (under its own id), update_asset
with a new AssetData whose asset_id, asset_name or asset_type differs from
the stored record raises the mismatch ValueError, so the update of the
stored record never runs and asset identity is never rebound. -/
theorem update_asset_identity_stable (idx : AssetIndex) (asset_id : Nat)
    (stored asset_data_new : AssetData) (purge_maps : Bool)
    (hlook : List.lookup asset_id idx.all_assets = some stored)
    (hkey : stored.asset_id = asset_id)
    (hmis : stored.asset_id ≠ asset_data_new.asset_id ∨
      stored.asset_name ≠ asset_data_new.asset_name ∨
      stored.asset_type ≠ asset_data_new.asset_type) :
    ∃ msg, idx.update_asset asset_id asset_data_new purge_maps =
      Except.error msg := by
  unfold AssetIndex.update_asset
  simp only [hlook]
  by_cases hid : asset_id ≠ asset_data_new.asset_id
  · rw [if_pos hid]
    exact ⟨_, rfl⟩
  · rw [if_neg hid]
    push_neg at hid
    by_cases hname : stored.asset_name ≠ asset_data_new.asset_name
    · rw [if_pos hname]
      exact ⟨_, rfl⟩
    · rw [if_neg hname]
      push_neg at hname
      have htype : stored.asset_type ≠ asset_data_new.asset_type := by
        rcases hmis with h | h | h
        · exact absurd (hkey.trans hid) h
        · exact absurd hname h
        · exact h
      rw [if_pos htype]
      exact ⟨_, rfl⟩

/-- C9, witness: a one-asset index and an update that renames the asset. -/
theorem update_asset_identity_stable_witness :
    List.lookup 7 (AssetIndex.all_assets
      { all_assets := [(7, { asset_id := 7, asset_type := AssetType.TEXTURE,
                             asset_name := "Metal001" })] }) =
      some { asset_id := 7, asset_type := AssetType.TEXTURE,
             asset_name := "Metal001" } ∧
    (∃ msg, AssetIndex.update_asset
      { all_assets := [(7, { asset_id := 7, asset_type := AssetType.TEXTURE,
                             asset_name := "Metal001" })] } 7
      { asset_id := 7, asset_type := AssetType.TEXTURE,
        asset_name := "Metal002" } false = Except.error msg) :=
  ⟨by decide, update_asset_identity_stable
    { all_assets := [(7, { asset_id := 7, asset_type := AssetType.TEXTURE,
                           asset_name := "Metal001" })] } 7
    { asset_id := 7, asset_type := AssetType.TEXTURE, asset_name := "Metal001" }
    { asset_id := 7, asset_type := AssetType.TEXTURE, asset_name := "Metal002" }
    false (by decide) rfl (Or.inr (Or.inl (by decide)))⟩

/-- Structured JSON values: the image of dataclasses.asdict plus json.dumps
used by save_cache (asset_index.py lines 1603-1619); the gzip and utf-8
byte layers are content-preserving transport and are elided. -/
inductive JVal
  | null
  | jbool (b : Bool)
  | jnum (n : Nat)
  | jstr (s : String)
  | jarr (elems : List JVal)
  | jobj (fields : List (String × JVal))

/-- Serialization of a nullable bool (tri-state fields). -/
def encode_opt_bool : Option Bool → JVal
  | none => JVal.null
  | some b => JVal.jbool b

/-- Modelled from the spec: the nullable-bool slice of
assets.AssetData._from_dict in the missing assets module. -/
def decode_opt_bool : JVal → Option (Option Bool)
  | JVal.null => some none
  | JVal.jbool b => some (some b)
  | _ => none

/-- Serialization of a nullable string. -/
def encode_opt_str : Option String → JVal
  | none => JVal.null
  | some s => JVal.jstr s

/-- Modelled from the spec: the nullable-string slice of
assets.AssetData._from_dict. -/
def decode_opt_str : JVal → Option (Option String)
  | JVal.null => some none
  | JVal.jstr s => some (some s)
  | _ => none

/-- Serialization of a string list. -/
def encode_str_list (l : List String) : JVal := JVal.jarr (l.map JVal.jstr)

/-- Elementwise decoding of a string list. -/
def decode_str_list_aux : List JVal → Option (List String)
  | [] => some []
  | JVal.jstr s :: rest => (decode_str_list_aux rest).map (fun t => s :: t)
  | _ => none

/-- Modelled from the spec: the string-list slice of
assets.AssetData._from_dict. -/
def decode_str_list : JVal → Option (List String)
  | JVal.jarr vs => decode_str_list_aux vs
  | _ => none

/-- Serialization of a concrete texture map record (asdict). -/
def encode_texture_map (m : TextureMap) : JVal :=
  JVal.jobj [("map_type", JVal.jstr m.map_type), ("size", encode_opt_str m.size),
    ("variant", encode_opt_str m.variant), ("lod", encode_opt_str m.lod),
    ("filename", JVal.jstr m.filename), ("directory", JVal.jstr m.directory)]

/-- Modelled from the spec: the TextureMap slice of
assets.AssetData._from_dict, expecting the field layout of asdict. -/
def decode_texture_map : JVal → Option TextureMap
  | JVal.jobj [("map_type", JVal.jstr mt), ("size", sz), ("variant", va),
      ("lod", lo), ("filename", JVal.jstr fn), ("directory", JVal.jstr dir)] =>
    match decode_opt_str sz, decode_opt_str va, decode_opt_str lo with
    | some s, some v, some l =>
      some { map_type := mt, size := s, variant := v, lod := l,
             filename := fn, directory := dir }
    | _, _, _ => none
  | _ => none

/-- Serialization of a texture map list. -/
def encode_tm_list (l : List TextureMap) : JVal :=
  JVal.jarr (l.map encode_texture_map)

/-- Elementwise decoding of a texture map list. -/
def decode_tm_list_aux : List JVal → Option (List TextureMap)
  | [] => some []
  | v :: rest =>
    match decode_texture_map v, decode_tm_list_aux rest with
    | some m, some ms => some (m :: ms)
    | _, _ => none

/-- Modelled from the spec: the texture-map-list slice of
assets.AssetData._from_dict. -/
def decode_tm_list : JVal → Option (List TextureMap)
  | JVal.jarr vs => decode_tm_list_aux vs
  | _ => none

/-- Serialization of the workflow-keyed map listing (a dict in asdict). -/
def encode_wf_maps (maps : List (String × List TextureMap)) : JVal :=
  JVal.jobj (maps.map (fun wk => (wk.1, encode_tm_list wk.2)))

/-- Fieldwise decoding of the workflow-keyed map listing. -/
def decode_wf_maps_aux : List (String × JVal) → Option (List (String × List TextureMap))
  | [] => some []
  | (w, v) :: rest =>
    match decode_tm_list v, decode_wf_maps_aux rest with
    | some ms, some tail => some ((w, ms) :: tail)
    | _, _ => none

/-- Modelled from the spec: the workflow-map slice of
assets.AssetData._from_dict. -/
def decode_wf_maps : JVal → Option (List (String × List TextureMap))
  | JVal.jobj fields => decode_wf_maps_aux fields
  | _ => none

/-- Serialization of a Texture payload. -/
def encode_texture (t : Texture) : JVal :=
  JVal.jobj [("maps", encode_wf_maps t.maps), ("sizes", encode_str_list t.sizes)]

/-- Modelled from the spec: the Texture slice of assets.AssetData._from_dict. -/
def decode_texture : JVal → Option Texture
  | JVal.jobj [("maps", m), ("sizes", s)] =>
    match decode_wf_maps m, decode_str_list s with
    | some maps, some sizes => some { maps := maps, sizes := sizes }
    | _, _ => none
  | _ => none

/-- Serialization of the mesh format tag. -/
def encode_model_type : ModelType → JVal
  | ModelType.FBX => JVal.jstr "FBX"
  | ModelType.BLEND => JVal.jstr "BLEND"
  | ModelType.C4D => JVal.jstr "C4D"
  | ModelType.MAX => JVal.jstr "MAX"

/-- Modelled from the spec: the mesh-format slice of
assets.AssetData._from_dict. -/
def decode_model_type : JVal → Option ModelType
  | JVal.jstr "FBX" => some ModelType.FBX
  | JVal.jstr "BLEND" => some ModelType.BLEND
  | JVal.jstr "C4D" => some ModelType.C4D
  | JVal.jstr "MAX" => some ModelType.MAX
  | _ => none

/-- Serialization of a concrete mesh record. -/
def encode_model_mesh (m : ModelMesh) : JVal :=
  JVal.jobj [("model_type", encode_model_type m.model_type),
    ("lod", encode_opt_str m.lod), ("filename", JVal.jstr m.filename),
    ("directory", JVal.jstr m.directory)]

/-- Modelled from the spec: the ModelMesh slice of
assets.AssetData._from_dict. -/
def decode_model_mesh : JVal → Option ModelMesh
  | JVal.jobj [("model_type", mt), ("lod", lo), ("filename", JVal.jstr fn),
      ("directory", JVal.jstr dir)] =>
    match decode_model_type mt, decode_opt_str lo with
    | some t, some l =>
      some { model_type := t, lod := l, filename := fn, directory := dir }
    | _, _ => none
  | _ => none

/-- Serialization of a mesh list. -/
def encode_mesh_list (l : List ModelMesh) : JVal :=
  JVal.jarr (l.map encode_model_mesh)

/-- Elementwise decoding of a mesh list. -/
def decode_mesh_list_aux : List JVal → Option (List ModelMesh)
  | [] => some []
  | v :: rest =>
    match decode_model_mesh v, decode_mesh_list_aux rest with
    | some m, some ms => some (m :: ms)
    | _, _ => none

/-- Modelled from the spec: the mesh-list slice of
assets.AssetData._from_dict. -/
def decode_mesh_list : JVal → Option (List ModelMesh)
  | JVal.jarr vs => decode_mesh_list_aux vs
  | _ => none

/-- Serialization of a nullable Texture payload. -/
def encode_opt_texture : Option Texture → JVal
  | none => JVal.null
  | some t => encode_texture t

/-- Modelled from the spec: the nullable-Texture slice of
assets.AssetData._from_dict. -/
def decode_opt_texture : JVal → Option (Option Texture)
  | JVal.null => some none
  | v => (decode_texture v).map some

/-- Serialization of a Model payload. -/
def encode_model (m : Model) : JVal :=
  JVal.jobj [("meshes", encode_mesh_list m.meshes),
    ("texture", encode_opt_texture m.texture),
    ("sizes", encode_str_list m.sizes), ("lods", encode_str_list m.lods)]

/-- Modelled from the spec: the Model slice of assets.AssetData._from_dict. -/
def decode_model : JVal → Option Model
  | JVal.jobj [("meshes", me), ("texture", tx), ("sizes", sz), ("lods", lo)] =>
    match decode_mesh_list me, decode_opt_texture tx,
        decode_str_list sz, decode_str_list lo with
    | some meshes, some texture, some sizes, some lods =>
      some { meshes := meshes, texture := texture, sizes := sizes, lods := lods }
    | _, _, _, _ => none
  | _ => none

/-- Serialization of an HDRI payload. -/
def encode_hdri (h : Hdri) : JVal :=
  JVal.jobj [("bg", encode_texture h.bg), ("light", encode_texture h.light)]

/-- Modelled from the spec: the Hdri slice of assets.AssetData._from_dict. -/
def decode_hdri : JVal → Option Hdri
  | JVal.jobj [("bg", b), ("light", l)] =>
    match decode_texture b, decode_texture l with
    | some bg, some light => some { bg := bg, light := light }
    | _, _ => none
  | _ => none

/-- Serialization of a Brush payload. -/
def encode_brush (b : Brush) : JVal :=
  JVal.jobj [("alpha", encode_texture b.alpha)]

/-- Modelled from the spec: the Brush slice of assets.AssetData._from_dict. -/
def decode_brush : JVal → Option Brush
  | JVal.jobj [("alpha", a)] =>
    match decode_texture a with
    | some alpha => some { alpha := alpha }
    | none => none
  | _ => none

/-- Serialization of the asset type tag. -/
def encode_asset_type : AssetType → JVal
  | AssetType.BRUSH => JVal.jstr "BRUSH"
  | AssetType.HDRI => JVal.jstr "HDRI"
  | AssetType.MODEL => JVal.jstr "MODEL"
  | AssetType.TEXTURE => JVal.jstr "TEXTURE"
  | AssetType.SUBSTANCE => JVal.jstr "SUBSTANCE"

/-- Modelled from the spec: the asset-type slice of
assets.AssetData._from_dict. -/
def decode_asset_type : JVal → Option AssetType
  | JVal.jstr "BRUSH" => some AssetType.BRUSH
  | JVal.jstr "HDRI" => some AssetType.HDRI
  | JVal.jstr "MODEL" => some AssetType.MODEL
  | JVal.jstr "TEXTURE" => some AssetType.TEXTURE
  | JVal.jstr "SUBSTANCE" => some AssetType.SUBSTANCE
  | _ => none

/-- Nullable payload serializers. -/
def encode_opt_model : Option Model → JVal
  | none => JVal.null
  | some m => encode_model m

/-- Modelled from the spec: nullable Model decoding. -/
def decode_opt_model : JVal → Option (Option Model)
  | JVal.null => some none
  | v => (decode_model v).map some

/-- Nullable HDRI serializer. -/
def encode_opt_hdri : Option Hdri → JVal
  | none => JVal.null
  | some h => encode_hdri h

/-- Modelled from the spec: nullable Hdri decoding. -/
def decode_opt_hdri : JVal → Option (Option Hdri)
  | JVal.null => some none
  | v => (decode_hdri v).map some

/-- Nullable Brush serializer. -/
def encode_opt_brush : Option Brush → JVal
  | none => JVal.null
  | some b => encode_brush b

/-- Modelled from the spec: nullable Brush decoding. -/
def decode_opt_brush : JVal → Option (Option Brush)
  | JVal.null => some none
  | v => (decode_brush v).map some

/-- Serialization of one AssetData record, the asdict image of save_cache
(asset_index.py line 1609), restricted to the claim-relevant fields. -/
def encode_asset_data (a : AssetData) : JVal :=
  JVal.jobj [("asset_id", JVal.jnum a.asset_id),
    ("asset_type", encode_asset_type a.asset_type),
    ("asset_name", JVal.jstr a.asset_name),
    ("is_local", encode_opt_bool a.is_local),
    ("is_purchased", encode_opt_bool a.is_purchased),
    ("texture", encode_opt_texture a.texture),
    ("model", encode_opt_model a.model),
    ("hdri", encode_opt_hdri a.hdri),
    ("brush", encode_opt_brush a.brush)]

/-- Modelled from the spec: assets.AssetData._from_dict of the missing
assets module, which must reconstruct every AssetData variant exactly from
the dictionary written by save_cache (load_cache, asset_index.py line
1641). -/
def decode_asset_data : JVal → Option AssetData
  | JVal.jobj [("asset_id", JVal.jnum aid), ("asset_type", ty),
      ("asset_name", JVal.jstr nm), ("is_local", il), ("is_purchased", ip),
      ("texture", tx), ("model", md), ("hdri", hd), ("brush", br)] => do
    let ty2 ← decode_asset_type ty
    let il2 ← decode_opt_bool il
    let ip2 ← decode_opt_bool ip
    let tx2 ← decode_opt_texture tx
    let md2 ← decode_opt_model md
    let hd2 ← decode_opt_hdri hd
    let br2 ← decode_opt_brush br
    some { asset_id := aid, asset_type := ty2, asset_name := nm,
           is_local := il2, is_purchased := ip2, texture := tx2,
           model := md2, hdri := hd2, brush := br2 }
  | _ => none

/-- Nullable strings round-trip. -/
theorem decode_opt_str_encode (o : Option String) :
    decode_opt_str (encode_opt_str o) = some o := by
  cases o <;> rfl

/-- Nullable bools round-trip. -/
theorem decode_opt_bool_encode (o : Option Bool) :
    decode_opt_bool (encode_opt_bool o) = some o := by
  cases o <;> rfl

/-- String lists round-trip. -/
theorem decode_str_list_encode (l : List String) :
    decode_str_list (encode_str_list l) = some l := by
  have aux : ∀ l2 : List String, decode_str_list_aux (l2.map JVal.jstr) = some l2 := by
    intro l2
    induction l2 with
    | nil => rfl
    | cons s rest ih => simp [decode_str_list_aux, ih]
  exact aux l

/-- Texture map records round-trip. -/
theorem decode_texture_map_encode (m : TextureMap) :
    decode_texture_map (encode_texture_map m) = some m := by
  obtain ⟨mt, sz, va, lo, fn, dir⟩ := m
  cases sz <;> cases va <;> cases lo <;> rfl

/-- Texture map lists round-trip. -/
theorem decode_tm_list_encode (l : List TextureMap) :
    decode_tm_list (encode_tm_list l) = some l := by
  have aux : ∀ l2 : List TextureMap,
      decode_tm_list_aux (l2.map encode_texture_map) = some l2 := by
    intro l2
    induction l2 with
    | nil => rfl
    | cons m rest ih =>
      simp [decode_tm_list_aux, decode_texture_map_encode, ih]
  exact aux l

/-- Workflow-keyed map listings round-trip. -/
theorem decode_wf_maps_encode (maps : List (String × List TextureMap)) :
    decode_wf_maps (encode_wf_maps maps) = some maps := by
  have aux : ∀ l : List (String × List TextureMap),
      decode_wf_maps_aux (l.map (fun wk => (wk.1, encode_tm_list wk.2))) = some l := by
    intro l
    induction l with
    | nil => rfl
    | cons wk rest ih =>
      obtain ⟨w, ms⟩ := wk
      simp [decode_wf_maps_aux, decode_tm_list_encode, ih]
  exact aux maps

/-- Texture payloads round-trip. -/
theorem decode_texture_encode (t : Texture) :
    decode_texture (encode_texture t) = some t := by
  obtain ⟨maps, sizes⟩ := t
  simp [encode_texture, decode_texture, decode_wf_maps_encode, decode_str_list_encode]

/-- Mesh format tags round-trip. -/
theorem decode_model_type_encode (t : ModelType) :
    decode_model_type (encode_model_type t) = some t := by
  cases t <;> rfl

/-- Mesh records round-trip. -/
theorem decode_model_mesh_encode (m : ModelMesh) :
    decode_model_mesh (encode_model_mesh m) = some m := by
  obtain ⟨mt, lo, fn, dir⟩ := m
  cases mt <;> cases lo <;> rfl

/-- Mesh lists round-trip. -/
theorem decode_mesh_list_encode (l : List ModelMesh) :
    decode_mesh_list (encode_mesh_list l) = some l := by
  have aux : ∀ l2 : List ModelMesh,
      decode_mesh_list_aux (l2.map encode_model_mesh) = some l2 := by
    intro l2
    induction l2 with
    | nil => rfl
    | cons m rest ih =>
      simp [decode_mesh_list_aux, decode_model_mesh_encode, ih]
  exact aux l

/-- The encoding of a Texture is never the null value. -/
theorem encode_texture_ne_null (t : Texture) : encode_texture t ≠ JVal.null := by
  simp [encode_texture]

/-- On non-null values, nullable-Texture decoding is Texture decoding. -/
theorem decode_opt_texture_not_null (v : JVal) (h : v ≠ JVal.null) :
    decode_opt_texture v = (decode_texture v).map some := by
  cases v <;> first | exact absurd rfl h | rfl

/-- On non-null values, nullable-Model decoding is Model decoding. -/
theorem decode_opt_model_not_null (v : JVal) (h : v ≠ JVal.null) :
    decode_opt_model v = (decode_model v).map some := by
  cases v <;> first | exact absurd rfl h | rfl

/-- On non-null values, nullable-Hdri decoding is Hdri decoding. -/
theorem decode_opt_hdri_not_null (v : JVal) (h : v ≠ JVal.null) :
    decode_opt_hdri v = (decode_hdri v).map some := by
  cases v <;> first | exact absurd rfl h | rfl

/-- On non-null values, nullable-Brush decoding is Brush decoding. -/
theorem decode_opt_brush_not_null (v : JVal) (h : v ≠ JVal.null) :
    decode_opt_brush v = (decode_brush v).map some := by
  cases v <;> first | exact absurd rfl h | rfl

/-- Nullable Texture payloads round-trip. -/
theorem decode_opt_texture_encode (o : Option Texture) :
    decode_opt_texture (encode_opt_texture o) = some o := by
  cases o with
  | none => rfl
  | some t =>
    rw [encode_opt_texture,
      decode_opt_texture_not_null _ (encode_texture_ne_null t), decode_texture_encode]
    rfl

/-- Model payloads round-trip. -/
theorem decode_model_encode (m : Model) :
    decode_model (encode_model m) = some m := by
  obtain ⟨meshes, texture, sizes, lods⟩ := m
  simp [encode_model, decode_model, decode_mesh_list_encode,
    decode_opt_texture_encode, decode_str_list_encode]

/-- HDRI payloads round-trip. -/
theorem decode_hdri_encode (h : Hdri) :
    decode_hdri (encode_hdri h) = some h := by
  obtain ⟨bg, light⟩ := h
  simp [encode_hdri, decode_hdri, decode_texture_encode]

/-- Brush payloads round-trip. -/
theorem decode_brush_encode (b : Brush) :
    decode_brush (encode_brush b) = some b := by
  obtain ⟨alpha⟩ := b
  simp [encode_brush, decode_brush, decode_texture_encode]

/-- Asset type tags round-trip. -/
theorem decode_asset_type_encode (t : AssetType) :
    decode_asset_type (encode_asset_type t) = some t := by
  cases t <;> rfl

/-- The encoding of a Model is never the null value. -/
theorem encode_model_ne_null (m : Model) : encode_model m ≠ JVal.null := by
  simp [encode_model]

/-- The encoding of an Hdri is never the null value. -/
theorem encode_hdri_ne_null (h : Hdri) : encode_hdri h ≠ JVal.null := by
  simp [encode_hdri]

/-- The encoding of a Brush is never the null value. -/
theorem encode_brush_ne_null (b : Brush) : encode_brush b ≠ JVal.null := by
  simp [encode_brush]

/-- Nullable Model payloads round-trip. -/
theorem decode_opt_model_encode (o : Option Model) :
    decode_opt_model (encode_opt_model o) = some o := by
  cases o with
  | none => rfl
  | some m =>
    rw [encode_opt_model,
      decode_opt_model_not_null _ (encode_model_ne_null m), decode_model_encode]
    rfl

/-- Nullable Hdri payloads round-trip. -/
theorem decode_opt_hdri_encode (o : Option Hdri) :
    decode_opt_hdri (encode_opt_hdri o) = some o := by
  cases o with
  | none => rfl
  | some h =>
    rw [encode_opt_hdri,
      decode_opt_hdri_not_null _ (encode_hdri_ne_null h), decode_hdri_encode]
    rfl

/-- Nullable Brush payloads round-trip. -/
theorem decode_opt_brush_encode (o : Option Brush) :
    decode_opt_brush (encode_opt_brush o) = some o := by
  cases o with
  | none => rfl
  | some b =>
    rw [encode_opt_brush,
      decode_opt_brush_not_null _ (encode_brush_ne_null b), decode_brush_encode]
    rfl

/-- AssetData records round-trip through the cache serialization. -/
theorem decode_asset_data_encode (a : AssetData) :
    decode_asset_data (encode_asset_data a) = some a := by
  obtain ⟨aid, ty, nm, il, ip, tx, md, hd, br⟩ := a
  simp [encode_asset_data, decode_asset_data, decode_asset_type_encode,
    decode_opt_bool_encode, decode_opt_texture_encode, decode_opt_model_encode,
    decode_opt_hdri_encode, decode_opt_brush_encode]

/-- Elementwise decoding of the stored asset list. -/
def decode_asset_list_aux : List JVal → Option (List AssetData)
  | [] => some []
  | v :: rest =>
    match decode_asset_data v, decode_asset_list_aux rest with
    | some a, some as2 => some (a :: as2)
    | _, _ => none

/-- Decoding of the top-level cache file value (a JSON array). -/
def decode_asset_list : JVal → Option (List AssetData)
  | JVal.jarr vs => decode_asset_list_aux vs
  | _ => none

/-- asset_index.py lines 1603-1619 (save_cache): requires a cache path of at
least two characters, then serializes the values of the asset map, in
insertion order, into one JSON array (the gzip layer is content-preserving
transport). -/
def save_cache (idx : AssetIndex) : Except String JVal :=
  if idx.path_cache.length < 2 then Except.error "No cache path set!"
  else Except.ok (JVal.jarr (idx.all_assets.map (fun kv => encode_asset_data kv.2)))

/-- asset_index.py lines 1621-1644 (load_cache): requires the cache path,
decodes the stored list, rebuilds the map keyed by each asset id in file
order, and replaces all_assets (the existence check of line 1627 and the
gzip layer concern the transport of `file` and are elided; a malformed file
is a json.loads / _from_dict failure). -/
def load_cache (idx : AssetIndex) (file : JVal) : Except String AssetIndex :=
  if idx.path_cache.length < 2 then Except.error "No cache path set!"
  else
    match decode_asset_list file with
    | some asset_list =>
      Except.ok { idx with
        all_assets := asset_list.map (fun asset_data => (asset_data.asset_id, asset_data)) }
    | none => Except.error "invalid cache file"

/-- Stored asset lists round-trip. -/
theorem decode_asset_list_encode (l : List AssetData) :
    decode_asset_list (JVal.jarr (l.map encode_asset_data)) = some l := by
  have aux : ∀ l2 : List AssetData,
      decode_asset_list_aux (l2.map encode_asset_data) = some l2 := by
    intro l2
    induction l2 with
    | nil => rfl
    | cons a rest ih =>
      simp [decode_asset_list_aux, decode_asset_data_encode, ih]
  exact aux l

/-- Rebuilding the map from its values restores it when every entry is
keyed by the asset id of its record. -/
theorem rekey_values (l : List (Nat × AssetData))
    (h : ∀ kv ∈ l, kv.1 = kv.2.asset_id) :
    (l.map (fun kv => kv.2)).map (fun a => (a.asset_id, a)) = l := by
  induction l with
  | nil => rfl
  | cons kv rest ih =>
    obtain ⟨k, a⟩ := kv
    have hk : k = a.asset_id := h (k, a) (List.mem_cons_self _ _)
    have htail : ∀ kv2 ∈ rest, kv2.1 = kv2.2.asset_id :=
      fun kv2 hm => h kv2 (List.mem_cons_of_mem (k, a) hm)
    simp only [List.map_cons]
    rw [ih htail, hk]

/-- C2: for an AssetIndex whose cache path is set, load_cache applied to the
file produced by save_cache reconstructs the asset map exactly (every
stored record round-trips with the same asset_id, asset_type, asset_name,
is_local, is_purchased and per-type file listings, for every payload
variant), provided every map entry is keyed by the asset id of its record
(Python dict keys are exactly that). -/
theorem cache_roundtrip (idx : AssetIndex)
    (hpath : 2 ≤ idx.path_cache.length)
    (hkeys : ∀ kv ∈ idx.all_assets, kv.1 = kv.2.asset_id) :
    ∃ file, save_cache idx = Except.ok file ∧ load_cache idx file = Except.ok idx := by
  refine ⟨JVal.jarr (idx.all_assets.map (fun kv => encode_asset_data kv.2)), ?_, ?_⟩
  · unfold save_cache
    rw [if_neg (by omega)]
  · unfold load_cache
    rw [if_neg (by omega)]
    have h1 : idx.all_assets.map (fun kv => encode_asset_data kv.2) =
        (idx.all_assets.map (fun kv => kv.2)).map encode_asset_data := by
      rw [List.map_map]
      rfl
    rw [h1, decode_asset_list_encode]
    show Except.ok { idx with all_assets :=
      (idx.all_assets.map (fun kv => kv.2)).map (fun a => (a.asset_id, a)) } =
      Except.ok idx
    rw [rekey_values idx.all_assets hkeys]

/-- A sample Texture asset. -/
def sample_texture_asset : AssetData :=
  { asset_id := 42, asset_type := AssetType.TEXTURE, asset_name := "Metal001",
    is_local := some true, is_purchased := some true,
    texture := some
      { maps := [("REGULAR",
          [{ map_type := "COL", size := some "4K", lod := some "NONE",
             filename := "Metal001_COL_4K.jpg", directory := "lib/Metal001" }])],
        sizes := ["1K", "4K"] } }

/-- A sample Model asset. -/
def sample_model_asset : AssetData :=
  { asset_id := 43, asset_type := AssetType.MODEL, asset_name := "Chair002",
    is_local := some false, is_purchased := some true,
    model := some
      { meshes :=
          [{ model_type := ModelType.FBX, lod := some "LOD1",
             filename := "Chair002_LOD1.fbx", directory := "lib/Chair002" }],
        texture := some { maps := [], sizes := ["2K"] },
        sizes := ["2K"], lods := ["LOD1"] } }

/-- A sample HDRI asset. -/
def sample_hdri_asset : AssetData :=
  { asset_id := 44, asset_type := AssetType.HDRI, asset_name := "Sky003",
    hdri := some
      { bg :=
          { maps := [("REGULAR",
              [{ map_type := "JPG", size := some "8K",
                 filename := "Sky003_JPG_8K.jpg", directory := "lib/Sky003" }])],
            sizes := ["8K"] },
        light := { maps := [], sizes := ["1K"] } } }

/-- A sample Brush asset. -/
def sample_brush_asset : AssetData :=
  { asset_id := 45, asset_type := AssetType.BRUSH, asset_name := "Grunge004",
    is_purchased := some false,
    brush := some
      { alpha :=
          { maps := [("REGULAR",
              [{ map_type := "ALPHA", size := some "2K",
                 filename := "Grunge004_ALPHA_2K.jpg",
                 directory := "lib/Grunge004" }])],
            sizes := ["2K"] } } }

/-- A concrete index holding one asset of each payload variant. -/
def sample_index : AssetIndex :=
  { path_cache := "cache.json",
    all_assets := [(42, sample_texture_asset), (43, sample_model_asset),
      (44, sample_hdri_asset), (45, sample_brush_asset)] }

/-- C2, witness: the sample index with one Texture, one Model, one HDRI and
one Brush asset round-trips through save_cache and load_cache. -/
theorem cache_roundtrip_witness :
    2 ≤ sample_index.path_cache.length ∧
    (∀ kv ∈ sample_index.all_assets, kv.1 = kv.2.asset_id) ∧
    ∃ file, save_cache sample_index = Except.ok file ∧
      load_cache sample_index file = Except.ok sample_index :=
  ⟨by decide, by decide, cache_roundtrip sample_index (by decide) (by decide)⟩

/-- Modelled from the spec (section 4.4): the closed map-type code
vocabulary MAPS_TYPE_NAMES of the missing assets module (workflow map codes
such as COL, NRM, ROUGHNESS per the glossary). -/
def MAPS_TYPE_NAMES : List String :=
  ["ALPHA", "AO", "BUMP", "BUMP16", "COL", "DIFF", "DISP", "DISP16",
   "EMISSION", "ENV", "FUZZ", "GLOSS", "HDR", "IDMAP", "JPG", "LIGHT",
   "MASK", "METALNESS", "NRM", "NRM16", "OVERLAY", "REFL", "ROUGHNESS",
   "SSS", "TRANSLUCENCY", "TRANSMISSION", "UNKNOWN"]

/-- Modelled from the spec (glossary): the closed workflow vocabulary. -/
def WORKFLOWS : List String := ["REGULAR", "METALNESS", "SPECULAR"]

/-- Modelled from the spec (glossary): the closed LOD tag vocabulary. -/
def LODS : List String := ["SOURCE", "LOD0", "LOD1", "LOD2", "LOD3", "LOD4"]

/-- Modelled from the spec (glossary): the closed variant tag vocabulary. -/
def VARIANTS : List String := ["VAR1", "VAR2", "VAR3"]

/-- Modelled from the spec: the preview filename suffixes recognized by the
scanner (asset_index.py line 551 checks base_filename_low.endswith against
assets.PREVIEWS). -/
def PREVIEWS : List String :=
  ["_atlas", "_sphere", "_cylinder", "_fabric", "_flat", "_cube", "_preview1"]

/-- Split a character list at every occurrence of the separator (the
semantics of Python str.split with a one-character separator). -/
def split_on_char (c : Char) : List Char → List Char → List (List Char)
  | [], acc => [acc.reverse]
  | x :: xs, acc =>
    if x = c then acc.reverse :: split_on_char c xs []
    else split_on_char c xs (x :: acc)

/-- Python str.split for a one-character separator, on strings. -/
def split_str (c : Char) (s : String) : List String :=
  (split_on_char c s.data []).map String.mk

/-- Rejoin character chunks with a separator character. -/
def join_with (c : Char) : List (List Char) → List Char
  | [] => []
  | [x] => x
  | x :: xs => x ++ c :: join_with c xs

/-- Lowercasing, Python str.lower restricted to ASCII names. -/
def str_lower (s : String) : String := String.mk (s.data.map Char.toLower)

/-- Python str.endswith. -/
def str_ends_with (s suffix : String) : Bool := suffix.data.isSuffixOf s.data

/-- os.path.splitext: split a filename at its last dot (the leading-dot
special case of hidden files does not arise for asset files). -/
def splitext (s : String) : String × String :=
  let parts := split_on_char '.' s.data []
  if parts.length ≤ 1 then (s, "")
  else (String.mk (join_with '.' parts.dropLast), "." ++ String.mk (parts.getLastD []))

/-- Substring containment, the Python `in` on strings. -/
def contains_sub_chars : List Char → List Char → Bool
  | [], sub => sub.isEmpty
  | x :: rest, sub => sub.isPrefixOf (x :: rest) || contains_sub_chars rest sub

/-- Substring containment on strings. -/
def contains_substr (s sub : String) : Bool := contains_sub_chars s.data sub.data

/-- Lexicographic comparison of character lists (Python string ordering for
the ASCII names involved). -/
def chars_le : List Char → List Char → Bool
  | [], _ => true
  | _ :: _, [] => false
  | x :: xs, y :: ys => if x = y then chars_le xs ys else decide (x < y)

/-- Stable insertion into an ascending string list. -/
def insert_sorted_str (x : String) : List String → List String
  | [] => [x]
  | y :: ys => if chars_le x.data y.data then x :: y :: ys else y :: insert_sorted_str x ys

/-- Ascending string sort. -/
def sort_str : List String → List String
  | [] => []
  | x :: xs => insert_sorted_str x (sort_str xs)

/-- sorted(list(set(files))) of asset_index.py line 637. -/
def sorted_dedup (files : List String) : List String := sort_str files.dedup

/-- asset_index.py lines 437-465 (_map_type_from_filename_parts): the first
part that is a known map-type code, with DIFF as the default for image
files without an explicit map tag (backdrops), plus the first part that is
a known workflow. -/
def map_type_from_filename_parts (parts : List String) : String × Option String :=
  let map_type_name := (parts.find? (fun p => MAPS_TYPE_NAMES.contains p)).getD "DIFF"
  let workflow := parts.find? (fun p => WORKFLOWS.contains p)
  (map_type_name, workflow)

/-- asset_index.py lines 467-487 (_lod_from_filename_parts): the first LOD of
the vocabulary present among the parts. -/
def lod_from_filename_parts (parts : List String) : Option String :=
  (LODS.filter (fun lod => parts.contains lod)).head?

/-- asset_index.py lines 489-509 (_size_from_filename_parts). -/
def size_from_filename_parts (parts : List String) : Option String :=
  (SIZES.filter (fun size => parts.contains size)).head?

/-- asset_index.py lines 511-534 (_variant_from_filename_parts). -/
def variant_from_filename_parts (parts : List String) : Option String :=
  (VARIANTS.filter (fun variant => parts.contains variant)).head?

/-- The accumulators filled by _analyze_files (asset_index.py lines
816-829). -/
structure FileAnalysis where
  lods : List String := []
  sizes : List String := []
  variants : List String := []
  previews : List String := []
  texture_maps : List (String × List TextureMap) := []
  meshes : List ModelMesh := []
deriving DecidableEq

/-- Append a texture map under its workflow key (asset_index.py lines
586-589). -/
def add_texture_map (maps : List (String × List TextureMap)) (workflow : String)
    (tm : TextureMap) : List (String × List TextureMap) :=
  if (List.lookup workflow maps).isSome then
    maps.map (fun wk => if wk.1 = workflow then (wk.1, wk.2 ++ [tm]) else wk)
  else maps ++ [(workflow, [tm])]

/-- asset_index.py lines 536-620 (_analyze_single_file): classify one file of
an asset directory by its filename tags and extend the accumulators. -/
def analyze_single_file (path filename workflow_fallback : String)
    (acc : FileAnalysis) : FileAnalysis :=
  let se := splitext filename
  let base_filename := se.1
  let base_filename_low := str_lower base_filename
  let suffix := str_lower se.2
  if PREVIEWS.any (fun preview_name => str_ends_with base_filename_low preview_name) then
    { acc with previews := acc.previews ++ [filename] }
  else if contains_substr base_filename "_SOURCE" then acc
  else
    let name_parts := split_str '_' base_filename
    let is_image := suffix ∈ [".jpg", ".jpeg", ".png", ".tif", ".exr", ".psd"]
    let mtwf := map_type_from_filename_parts name_parts
    let map_type : Option String := if is_image then some mtwf.1 else none
    let workflow_file := if is_image then mtwf.2.getD workflow_fallback
      else workflow_fallback
    let lod0 := lod_from_filename_parts name_parts
    let size := size_from_filename_parts name_parts
    let variant := variant_from_filename_parts name_parts
    let lod := some (lod0.getD "NONE")
    let acc := { acc with lods := acc.lods ++ [lod0.getD "NONE"] }
    let acc := match size with
      | some s => { acc with sizes := acc.sizes ++ [s] }
      | none => acc
    let acc := match variant with
      | some v => { acc with variants := acc.variants ++ [v] }
      | none => acc
    match map_type with
    | some mt =>
      let tex_map : TextureMap :=
        { map_type := mt, size := size, variant := variant, lod := lod,
          filename := filename, directory := path }
      { acc with texture_maps := add_texture_map acc.texture_maps workflow_file tex_map }
    | none =>
      if suffix = ".fbx" then
        { acc with meshes := acc.meshes ++
          [{ model_type := ModelType.FBX, lod := lod, filename := filename,
             directory := path }] }
      else if suffix = ".blend" then
        { acc with meshes := acc.meshes ++
          [{ model_type := ModelType.BLEND, lod := lod, filename := filename,
             directory := path }] }
      else if suffix = ".c4d" then
        { acc with meshes := acc.meshes ++
          [{ model_type := ModelType.C4D, lod := lod, filename := filename,
             directory := path }] }
      else if suffix = ".max" then
        { acc with meshes := acc.meshes ++
          [{ model_type := ModelType.MAX, lod := lod, filename := filename,
             directory := path }] }
      else acc

/-- asset_index.py lines 622-647 (_analyze_files) on one directory level: the
walk visits the asset directory and analyzes its files sorted and
deduplicated. -/
def analyze_files (dir_asset : String) (files : List String)
    (workflow_fallback : String) : FileAnalysis :=
  (sorted_dedup files).foldl
    (fun acc file => analyze_single_file dir_asset file workflow_fallback acc) {}

/-- asset_index.py lines 770-785 (_prepare_tex_update_asset_data). -/
def prepare_tex_update (texture_maps : List (String × List TextureMap))
    (sizes : List String) (upd : AssetData) : AssetData × Bool :=
  let tex : Texture := { maps := texture_maps, sizes := sizes }
  ({ upd with texture := some tex },
   if sizes = ["WM"] then false else ¬ texture_maps.isEmpty)

/-- asset_index.py lines 673-691 (_prepare_brush_update_asset_data): alpha
maps only; without the workflow key nothing is stored. -/
def prepare_brush_update (workflow : String)
    (texture_maps : List (String × List TextureMap)) (upd : AssetData) :
    AssetData × Bool :=
  match List.lookup workflow texture_maps with
  | none => (upd, false)
  | some tms =>
    let alphas := tms.filter (fun tm => tm.map_type == "ALPHA")
    ({ upd with brush := some { alpha := { maps := [(workflow, alphas)] } } },
     ¬ alphas.isEmpty)

/-- asset_index.py lines 693-720 (_prepare_hdri_update_asset_data):
background maps are ENV or JPG, light maps are LIGHT or HDR. -/
def prepare_hdri_update (workflow : String)
    (texture_maps : List (String × List TextureMap)) (upd : AssetData) :
    AssetData × Bool :=
  match List.lookup workflow texture_maps with
  | none => (upd, false)
  | some tms =>
    let bgs := tms.filter (fun tm => tm.map_type == "ENV" || tm.map_type == "JPG")
    let lights := tms.filter (fun tm => tm.map_type == "LIGHT" || tm.map_type == "HDR")
    let hdri : Hdri :=
      { bg := { maps := [(workflow, bgs)] },
        light := { maps := [(workflow, lights)] } }
    ({ upd with hdri := some hdri }, ¬ bgs.isEmpty || ¬ lights.isEmpty)

/-- asset_index.py lines 722-768 (_prepare_model_update_asset_data); the
remote size list of the payload is deliberately left untouched (source
comment at lines 761-764), the map descriptors carry no file content and
are elided. -/
def prepare_model_update (meshes : List ModelMesh)
    (texture_maps : List (String × List TextureMap)) (sizes lods : List String)
    (upd : AssetData) : AssetData × Bool :=
  if texture_maps.isEmpty then (upd, false)
  else
    let tex : Texture := { maps := texture_maps, sizes := sizes }
    let model : Model :=
      { meshes := meshes, texture := some tex, sizes := [], lods := lods }
    ({ upd with model := some model }, true)

/-- Modelled from the spec: get_workflow of the type payload — the fallback
workflow when stored, otherwise the first stored workflow, None when no
workflow is stored. -/
def AssetData.get_workflow (ad : AssetData) (fallback : String) : Option String :=
  let wfs := ad.get_workflow_list
  if wfs.isEmpty then none
  else if wfs.contains fallback then some fallback
  else wfs.head?

/-- asset_index.py lines 787-865 (update_from_directory): analyze an asset
directory (given here by its path and file listing), rebuild the
type-specific local-file payload, merge it into the stored record via
update_asset, and mark the asset local exactly when matching files were
found.  A missing asset id raises KeyError. -/
def AssetIndex.update_from_directory (idx : AssetIndex) (asset_id : Nat)
    (dir_asset : String) (files : List String) (workflow_fallback : String) :
    Except String (AssetIndex × Bool) :=
  match List.lookup asset_id idx.all_assets with
  | none => Except.error "Unable to update, asset_id not found"
  | some asset_data =>
    let workflow := (asset_data.get_workflow workflow_fallback).getD workflow_fallback
    let an := analyze_files dir_asset files workflow
    let lods := sorted_dedup an.lods
    let sizes := sorted_dedup an.sizes
    let upd0 : AssetData :=
      { asset_id := asset_id, asset_type := asset_data.asset_type,
        asset_name := asset_data.asset_name }
    let pr : AssetData × Bool :=
      match asset_data.asset_type with
      | AssetType.BRUSH => prepare_brush_update workflow_fallback an.texture_maps upd0
      | AssetType.HDRI => prepare_hdri_update workflow_fallback an.texture_maps upd0
      | AssetType.MODEL =>
        prepare_model_update an.meshes an.texture_maps sizes lods upd0
      | AssetType.TEXTURE => prepare_tex_update an.texture_maps sizes upd0
      | AssetType.SUBSTANCE => (upd0, false)
    match idx.update_asset asset_id pr.1 false with
    | Except.error msg => Except.error msg
    | Except.ok idx2 =>
      if pr.2 then
        Except.ok ({ idx2 with all_assets := idx2.all_assets.map (fun kv =>
          if kv.1 = asset_id then (kv.1, { kv.2 with is_local := some true })
          else kv) }, true)
      else Except.ok (idx2, false)

/-- asset_index.py lines 1652-1675 (get_asset_id_list). -/
def AssetIndex.get_asset_id_list (idx : AssetIndex) (asset_type : Option AssetType)
    (purchased : Option Bool) : List Nat :=
  let ids := (idx.all_assets.filter (fun kv =>
    match asset_type with
    | none => true
    | some t => kv.2.asset_type == t)).map (fun kv => kv.2.asset_id)
  match purchased with
  | none => ids
  | some p => ids.filter (fun asset_id =>
      match List.lookup asset_id idx.all_assets with
      | none => false
      | some ad => ad.is_purchased == some p)

/-- One library root together with its asset directories and their files;
the embedding models each library one directory level deep, which is the
shape the matcher of update_all_local_assets looks at. -/
structure LibraryDir where
  root : String
  asset_dirs : List (String × List String)

/-- The inner directory loop of update_all_local_assets (asset_index.py
lines 916-932): match directory names against the purchased-asset names,
rescan matches, collect unmatched directories. -/
def scan_asset_dirs (workflow_fallback : String)
    (asset_name_dict : List (String × Nat)) (root : String) :
    List (String × List String) → AssetIndex → List String → List String →
      Except String (AssetIndex × List String × List String)
  | [], idx, matched, unmatched => Except.ok (idx, matched, unmatched)
  | (directory, files) :: rest, idx, matched, unmatched =>
    let dir_asset := path_join root directory
    match List.lookup directory asset_name_dict with
    | some asset_id =>
      match idx.update_from_directory asset_id dir_asset files workflow_fallback with
      | Except.error msg => Except.error msg
      | Except.ok (idx2, files_found) =>
        let matched2 :=
          if files_found && ! matched.contains directory then
            matched ++ [directory]
          else matched
        scan_asset_dirs workflow_fallback asset_name_dict root rest idx2 matched2 unmatched
    | none =>
      scan_asset_dirs workflow_fallback asset_name_dict root rest idx matched
        (unmatched ++ [dir_asset])

/-- The outer library loop of update_all_local_assets over the already
reversed directory list. -/
def scan_libraries (workflow_fallback : String)
    (asset_name_dict : List (String × Nat)) :
    List LibraryDir → AssetIndex → List String → List String →
      Except String (AssetIndex × List String × List String)
  | [], idx, matched, unmatched => Except.ok (idx, matched, unmatched)
  | lib :: rest, idx, matched, unmatched =>
    match scan_asset_dirs workflow_fallback asset_name_dict lib.root lib.asset_dirs
        idx matched unmatched with
    | Except.error msg => Except.error msg
    | Except.ok (idx2, m2, u2) =>
      scan_libraries workflow_fallback asset_name_dict rest idx2 m2 u2

/-- asset_index.py lines 867-940 (update_all_local_assets): gather the
(purchased) asset names, reset their locality, then scan the library
directories in reversed order — the primary directory is scanned last and
therefore wins for filename collisions — and return the assets without
files and the unmatched directories. -/
def AssetIndex.update_all_local_assets (idx : AssetIndex)
    (library_dirs : List LibraryDir) (workflow_fallback : String)
    (purchased : Option Bool) :
    Except String (AssetIndex × List (String × Nat) × List String) :=
  let asset_id_list := idx.get_asset_id_list none purchased
  let asset_name_dict := asset_id_list.filterMap (fun asset_id =>
    (List.lookup asset_id idx.all_assets).map (fun ad => (ad.asset_name, asset_id)))
  let idx0 : AssetIndex := { idx with all_assets := idx.all_assets.map (fun kv =>
    if asset_id_list.contains kv.1 then (kv.1, { kv.2 with is_local := some false })
    else kv) }
  match scan_libraries workflow_fallback asset_name_dict library_dirs.reverse
      idx0 [] [] with
  | Except.error msg => Except.error msg
  | Except.ok (idx2, matched, unmatched_dirs) =>
    Except.ok (idx2,
      asset_name_dict.filter (fun kv => ! matched.contains kv.1), unmatched_dirs)

/-- Every entry of a merged map listing comes from the newly scanned
directory, or is an old entry whose filename the new scan did not produce:
for any filename collision the later scan wins. -/
theorem merge_maps_mem (old new : List TextureMap) (m : TextureMap)
    (hm : m ∈ merge_maps old new) :
    m ∈ new ∨ (m ∈ old ∧ ∀ n ∈ new, n.filename ≠ m.filename) := by
  unfold merge_maps at hm
  rcases List.mem_append.mp hm with h | h
  · obtain ⟨o, ho, heq⟩ := List.mem_map.mp h
    cases hf : new.find? (fun n => n.filename == o.filename) with
    | some n =>
      rw [hf] at heq
      subst heq
      exact Or.inl (List.mem_of_find?_eq_some hf)
    | none =>
      rw [hf] at heq
      subst heq
      refine Or.inr ⟨ho, fun n hn => ?_⟩
      have := List.find?_eq_none.mp hf n hn
      simpa using this
  · exact Or.inl (List.mem_of_mem_filter h)

/-- The index before the rescan: one purchased Texture asset with no local
files. -/
def sample_local_index : AssetIndex :=
  { path_cache := "",
    all_assets := [(42,
      { asset_id := 42, asset_type := AssetType.TEXTURE,
        asset_name := "Metal001", is_purchased := some true,
        texture := some { maps := [], sizes := ["1K", "2K", "4K"] } })] }

/-- The primary library: the asset directory holds only the COL map. -/
def primary_library (pr : String) : LibraryDir :=
  { root := pr, asset_dirs := [("Metal001", ["Metal001_COL_2K.jpg"])] }

/-- The secondary library: the asset directory holds a colliding COL map
and an NRM map of its own. -/
def secondary_library (sr : String) : LibraryDir :=
  { root := sr,
    asset_dirs := [("Metal001", ["Metal001_COL_2K.jpg", "Metal001_NRM_2K.jpg"])] }

/-- The COL map as resolved from the primary library. -/
def expected_col_map (pr : String) : TextureMap :=
  { map_type := "COL", size := some "2K", lod := some "NONE",
    filename := "Metal001_COL_2K.jpg", directory := path_join pr "Metal001" }

/-- The NRM map as resolved from the secondary library. -/
def expected_nrm_map (sr : String) : TextureMap :=
  { map_type := "NRM", size := some "2K", lod := some "NONE",
    filename := "Metal001_NRM_2K.jpg", directory := path_join sr "Metal001" }

/-- The index after the rescan: the colliding COL filename points into the
primary library, the NRM file into the secondary one. -/
def expected_index (pr sr : String) : AssetIndex :=
  { path_cache := "",
    all_assets := [(42,
      { asset_id := 42, asset_type := AssetType.TEXTURE,
        asset_name := "Metal001", is_local := some true,
        is_purchased := some true,
        texture := some
          { maps := [("REGULAR", [expected_col_map pr, expected_nrm_map sr])],
            sizes := ["2K"] } })] }

/-- C5: update_all_local_assets scans the library directories in reversed
order, so the primary (first) directory is processed last and its files win
for filename collisions: (a) in a merged listing, every entry either comes
from the later scan or is an earlier entry whose filename the later scan
did not produce; (b) end to end, for any two library roots holding the
same asset where the primary holds a colliding COL map, the resulting
local-file payload takes the COL file from the primary directory and the
non-colliding NRM file from the secondary one. -/
theorem update_all_local_assets_primary_wins :
    (∀ (old new : List TextureMap) (m : TextureMap), m ∈ merge_maps old new →
      m ∈ new ∨ (m ∈ old ∧ ∀ n ∈ new, n.filename ≠ m.filename)) ∧
    (∀ pr sr : String,
      AssetIndex.update_all_local_assets sample_local_index
        [primary_library pr, secondary_library sr] "REGULAR" (some true) =
      Except.ok (expected_index pr sr, [], [])) :=
  ⟨merge_maps_mem, fun _ _ => rfl⟩

/-- C5, witness: the merged-listing property applied to a concrete
collision, plus the end-to-end rescan at concrete roots. -/
theorem update_all_local_assets_primary_wins_witness :
    (expected_col_map "PRIM" ∈
        merge_maps [expected_col_map "SEC"] [expected_col_map "PRIM"] ∧
      (expected_col_map "PRIM" ∈ ([expected_col_map "PRIM"] : List TextureMap) ∨
        (expected_col_map "PRIM" ∈ ([expected_col_map "SEC"] : List TextureMap) ∧
          ∀ n ∈ ([expected_col_map "PRIM"] : List TextureMap),
            n.filename ≠ (expected_col_map "PRIM").filename))) ∧
    AssetIndex.update_all_local_assets sample_local_index
      [primary_library "PRIM", secondary_library "SEC"] "REGULAR" (some true) =
      Except.ok (expected_index "PRIM" "SEC", [], []) :=
  ⟨⟨by decide, update_all_local_assets_primary_wins.1
      [expected_col_map "SEC"] [expected_col_map "PRIM"]
      (expected_col_map "PRIM") (by decide)⟩,
    update_all_local_assets_primary_wins.2 "PRIM" "SEC"⟩

/-- addon.py line 49. -/
def MAX_DOWNLOAD_RETRIES : Nat := 10

/-- Outcome of os.makedirs on the download directory (addon.py lines
636-646). -/
inductive MkdirResult
  | ok
  | permissionError
  | osError (msg : String)
deriving DecidableEq

/-- One result of check_downloads (addon.py lines 959-995), the poll over
the unit futures of the worker pool. -/
structure PollResult where
  all_done : Bool
  any_error : Bool
  size_downloaded : Nat
  res_error : Option String
deriving DecidableEq

/-- The concurrent inputs of the threaded download_asset: the successive
outcomes of download_update (reads of the cancellation set mutated by the
UI thread), of get_download_list (the URL fetches against the remote API),
and of check_downloads (the polls over the worker futures), each indexed by
its call count; the makedirs outcome; the rename permission map; and the
resolved library directory of get_destination_library_directory. -/
structure DlAssetEnv where
  shouldContinue : Nat → Bool
  urlFetch : Nat → Option (List FileDownload × Nat)
  poll : Nat → PollResult
  mkdir : MkdirResult
  noPerm : String → Bool
  download_dir : String

/-- The call counters and accumulated events of one download_asset run. -/
structure LoopState where
  ucount : Nat := 0
  fcount : Nat := 0
  pcount : Nat := 0
  scheduled : List (List FileDownload) := []
deriving DecidableEq

/-- Outcome of the inner poll loop of download_asset (addon.py lines
683-707). -/
inductive PollOutcome
  | allDone
  | errorReturn (res_error : Option String)
  | userCancel
  | fuelOut
deriving DecidableEq

/-- addon.py lines 997-1003 (cancel_downloads, per unit): mark the unit
CANCELLED; the subsequent future cancellation and the bounded join carry no
data content. -/
def set_status_cancelled_unit (dl : FileDownload) : FileDownload :=
  { dl with status := set_status_cancelled dl.status }

/-- The inner poll loop of download_asset (addon.py lines 683-707): poll the
units, then read the cancellation flag, until every unit is done, a unit
failed, or the user cancelled.  The fuel bounds the number of polls of this
otherwise unbounded loop; the theorems use environments that terminate it. -/
def poll_loop (env : DlAssetEnv) : Nat → LoopState → PollOutcome × LoopState
  | 0, st => (PollOutcome.fuelOut, st)
  | fuel + 1, st =>
    let pr := env.poll st.pcount
    let st := { st with pcount := st.pcount + 1 }
    let user_cancel := ! env.shouldContinue st.ucount
    let st := { st with ucount := st.ucount + 1 }
    if pr.all_done && ! pr.any_error then (PollOutcome.allDone, st)
    else if pr.any_error then (PollOutcome.errorReturn pr.res_error, st)
    else if user_cancel then (PollOutcome.userCancel, st)
    else poll_loop env fuel st

/-- Outcome of the outer retry loop of download_asset (addon.py lines
657-708). -/
inductive OuterOutcome
  | exited (all_done any_error user_cancel : Bool)
      (dl_list : Option (List FileDownload))
  | errorReturn (res_error : Option String) (dl_list : List FileDownload)
  | pollFuelOut
deriving DecidableEq

/-- The outer retry loop of download_asset (addon.py lines 657-708): refetch
URLs (up to MAX_DOWNLOAD_RETRIES), schedule the units, and run the poll
loop.  Every iteration decrements retries, so the fuel passed by
download_asset (MAX_DOWNLOAD_RETRIES + 1) never runs out. -/
def download_asset_loop (env : DlAssetEnv) (pollFuel : Nat) :
    Nat → Int → Bool → Bool → Bool → Option (List FileDownload) → LoopState →
      OuterOutcome × LoopState
  | 0, _, all_done, any_error, user_cancel, dl_list, st =>
    (OuterOutcome.exited all_done any_error user_cancel dl_list, st)
  | fuel + 1, retries, all_done, any_error, user_cancel, dl_list, st =>
    if all_done || user_cancel || retries ≤ 0 then
      (OuterOutcome.exited all_done any_error user_cancel dl_list, st)
    else
      -- line 659: first download_update, its result is overwritten below
      let st := { st with ucount := st.ucount + 1 }
      let fetched := env.urlFetch st.fcount
      let st := { st with fcount := st.fcount + 1 }
      let uc := ! env.shouldContinue st.ucount
      let st := { st with ucount := st.ucount + 1 }
      if uc then
        (OuterOutcome.exited all_done any_error true (fetched.map Prod.fst), st)
      else
        match fetched with
        | none =>
          download_asset_loop env pollFuel fuel (retries - 1) all_done any_error
            user_cancel none st
        | some (l, _) =>
          let l2 := schedule_downloads env.download_dir l
          let st := { st with scheduled := st.scheduled ++ [l2] }
          let r := poll_loop env pollFuel st
          match r.1 with
          | PollOutcome.allDone =>
            -- retries := 0, break, then retries -= 1 and the loop exits
            (OuterOutcome.exited true false false (some l2), r.2)
          | PollOutcome.errorReturn res_error =>
            (OuterOutcome.errorReturn res_error (l2.map set_status_cancelled_unit), r.2)
          | PollOutcome.userCancel =>
            (OuterOutcome.exited false false true
              (some (l2.map set_status_cancelled_unit)), r.2)
          | PollOutcome.fuelOut => (OuterOutcome.pollFuelOut, r.2)

/-- Outcome of an os.rename call. -/
inductive RenameOutcome
  | renamed
  | existsErr
  | notFound
  | permErr
deriving DecidableEq

/-- os.rename: FileNotFoundError when the source is missing,
PermissionError when the OS denies the move (per the noPerm map), and the
FileExistsError of Windows when the target exists; otherwise the file moves
to the target path. -/
def os_rename (noPerm : String → Bool) (fs : FS) (src dst : String) :
    RenameOutcome × FS :=
  if (fs src).isNone then (RenameOutcome.notFound, fs)
  else if noPerm src then (RenameOutcome.permErr, fs)
  else if (fs dst).isSome then (RenameOutcome.existsErr, fs)
  else (RenameOutcome.renamed, fs_set (fs_delete fs src) dst ((fs src).getD 0))

/-- addon.py lines 1075-1077: error_msg keeps the error of a failed unit
(error_msg is initialized to the empty string and is therefore never None). -/
def pick_error_msg (download : FileDownload) (error_msg : String) : String :=
  if download.error ≠ none ∧ download.error ≠ some "" then
    (download.error).getD ""
  else error_msg

/-- Result of rename_downloads: the returned (all_successful, error_msg)
pair of the source plus the filesystem and unit list it mutated. -/
structure RenameDownloadsResult where
  all_successful : Bool
  error_msg : String
  fs : FS
  dl_list : List FileDownload

/-- The per-unit loop of rename_downloads (addon.py lines 1032-1077). -/
def rename_downloads_aux (noPerm : String → Bool) :
    List FileDownload → FS → Bool → String → List FileDownload →
      RenameDownloadsResult
  | [], fs, all_successful, error_msg, acc =>
    { all_successful := all_successful, error_msg := error_msg, fs := fs,
      dl_list := acc.reverse }
  | download :: rest, fs, all_successful, error_msg, acc =>
    let path_temp := download.get_path true
    let temp_exists := (fs path_temp).isSome
    let path_final := download.get_path false
    let final_exists := (fs path_final).isSome
    if ! temp_exists && final_exists then
      -- lines 1040-1041: already in place, nothing to rename
      rename_downloads_aux noPerm rest fs all_successful
        (pick_error_msg download error_msg) (download :: acc)
    else
      let r := os_rename noPerm fs path_temp path_final
      match r.1 with
      | RenameOutcome.renamed =>
        rename_downloads_aux noPerm rest r.2 all_successful
          (pick_error_msg download error_msg) (download :: acc)
      | RenameOutcome.existsErr =>
        -- lines 1045-1046: discard the duplicate temp copy, not an error
        rename_downloads_aux noPerm rest (fs_delete fs path_temp) all_successful
          (pick_error_msg download error_msg) (download :: acc)
      | RenameOutcome.notFound =>
        -- lines 1047-1054
        let dl2 := { download with
          status := DownloadStatus.ERROR
          error := some ("Missing file: " ++ path_temp) }
        rename_downloads_aux noPerm rest fs false
          (pick_error_msg dl2 error_msg) (dl2 :: acc)
      | RenameOutcome.permErr =>
        -- lines 1055-1073
        let dl2 := { download with
          status := DownloadStatus.ERROR
          error := some ("Lacking permission to rename downloaded file: " ++ path_temp) }
        rename_downloads_aux noPerm rest fs false
          (pick_error_msg dl2 error_msg) (dl2 :: acc)

/-- addon.py lines 1024-1080 (rename_downloads): strip the dl suffix from
every completed temp file; a pre-existing final file means the duplicate
temp copy is discarded, a missing temp file or missing permission marks the
unit ERROR and flips all_successful. -/
def rename_downloads (noPerm : String → Bool) (fs : FS)
    (dl_list : List FileDownload) : RenameDownloadsResult :=
  rename_downloads_aux noPerm dl_list fs true "" []

/-- Result of the threaded download_asset: the returned bool, whether an
exception escaped the worker, the download queue and cancellation set after
the call, the scheduled unit batches, the done-callback invocations, the
rename outcome when the rename phase ran, and the filesystem. -/
structure DlAssetResult where
  ret : Bool
  raised : Bool := false
  queue : List Nat
  cancelled : List Nat
  scheduled : List (List FileDownload) := []
  doneCalls : List (Nat × Option String) := []
  renameResult : Option (Bool × String) := none
  fs : FS

/-- addon.py lines 596-735 (download_asset, the threaded per-asset
orchestrator): the cancel-before-start guard, the download directory
creation, the retry loop, and the rename plus cleanup tail.  The index
rescan of update_asset_data is the separately embedded
update_from_directory.  get_download_data and
get_destination_library_directory resolve the request payload and the
target directory; the resolved directory enters through env.download_dir. -/
def download_asset (env : DlAssetEnv) (fs : FS) (queue cancelled : List Nat)
    (asset_id : Nat) (pollFuel : Nat) : DlAssetResult :=
  -- lines 611-618: a queued download cancelled before its thread runs
  if cancelled.contains asset_id then
    if ! queue.contains asset_id then
      -- the unguarded del of line 616 raises KeyError
      { ret := false, raised := true, queue := queue, cancelled := cancelled,
        fs := fs }
    else
      { ret := false, queue := queue.filter (fun i => i ≠ asset_id),
        cancelled := cancelled.filter (fun i => i ≠ asset_id), fs := fs }
  else if ! queue.contains asset_id then
    -- lines 619-621
    { ret := false, queue := queue, cancelled := cancelled, fs := fs }
  else
    match env.mkdir with
    | MkdirResult.permissionError =>
      -- lines 638-642
      { ret := false, queue := queue.filter (fun i => i ≠ asset_id),
        cancelled := cancelled,
        doneCalls := [(asset_id, some ERR_OS_NO_PERMISSION)], fs := fs }
    | MkdirResult.osError _ =>
      -- lines 643-646: the callback receives the fixed ERR_OS_WRITE message
      { ret := false, queue := queue.filter (fun i => i ≠ asset_id),
        cancelled := cancelled,
        doneCalls := [(asset_id, some ERR_OS_WRITE)], fs := fs }
    | MkdirResult.ok =>
      let r := download_asset_loop env pollFuel (MAX_DOWNLOAD_RETRIES + 1)
        (Int.ofNat MAX_DOWNLOAD_RETRIES) false false false none {}
      match r.1 with
      | OuterOutcome.errorReturn res_error _dl_list =>
        -- lines 697-700: error exit without queue cleanup
        { ret := false, queue := queue, cancelled := cancelled,
          scheduled := r.2.scheduled,
          doneCalls := [(asset_id, res_error)],
          renameResult := none, fs := fs }
      | OuterOutcome.pollFuelOut =>
        { ret := false, raised := true, queue := queue, cancelled := cancelled,
          scheduled := r.2.scheduled, fs := fs }
      | OuterOutcome.exited all_done any_error user_cancel dl_list =>
        -- lines 713-735
        let rr : Option (Bool × String) × FS :=
          if all_done && ! any_error && ! user_cancel then
            match dl_list with
            | some l =>
              let res := rename_downloads env.noPerm fs l
              (some (res.all_successful, res.error_msg), res.fs)
            | none => (none, fs)
          else (none, fs)
        { ret := true, queue := queue.filter (fun i => i ≠ asset_id),
          cancelled := cancelled.filter (fun i => i ≠ asset_id),
          scheduled := r.2.scheduled,
          doneCalls := [(asset_id, none)],
          renameResult := rr.1, fs := rr.2 }

/-- C6: cancelling a still-queued, not yet started download writes zero
bytes: (a) download_asset returns False before scheduling any unit when the
asset id is in the cancelled set, leaving the filesystem untouched; (b) at
the worker level, set_status_ongoing on a CANCELLED unit reports failure
with no state change, and download_asset_file on a CANCELLED unit never
touches the filesystem; when the stream was opened and no already-complete
file short-circuits, it returns the user-cancel error with the unit still
CANCELLED, before opening its output file. -/
theorem cancel_before_start_zero_bytes (env : DlAssetEnv) (fs : FS)
    (queue cancelled : List Nat) (asset_id : Nat) (pollFuel : Nat)
    (net : StreamResult) (cancelAt : Option Nat) (download : FileDownload)
    (hc : cancelled.contains asset_id = true)
    (hdl : download.status = DownloadStatus.CANCELLED) :
    ((download_asset env fs queue cancelled asset_id pollFuel).ret = false ∧
      (download_asset env fs queue cancelled asset_id pollFuel).scheduled = [] ∧
      (download_asset env fs queue cancelled asset_id pollFuel).fs = fs) ∧
    set_status_ongoing DownloadStatus.CANCELLED = (DownloadStatus.CANCELLED, false) ∧
    (download_asset_file fs net cancelAt download).fs = fs ∧
    (∀ (contentLength : Nat) (chunks : List Nat) (exc : Option (Nat × StreamExc)),
      check_exist_and_finished fs (download.get_path true) download = false →
      check_exist_and_finished fs (download.get_path false) download = false →
      (download_asset_file fs (StreamResult.stream contentLength chunks exc)
          cancelAt download).ok = false ∧
      (download_asset_file fs (StreamResult.stream contentLength chunks exc)
          cancelAt download).error = some ERR_USER_CANCEL_MSG ∧
      (download_asset_file fs (StreamResult.stream contentLength chunks exc)
          cancelAt download).download.status = DownloadStatus.CANCELLED) := by
  refine ⟨?_, by decide, ?_, ?_⟩
  · unfold download_asset
    simp only [hc, if_true]
    split <;> exact ⟨rfl, rfl, rfl⟩
  · unfold download_asset_file
    by_cases ht : check_exist_and_finished fs (download.get_path true) download = true
    · simp [ht]
    · by_cases hf : check_exist_and_finished fs (download.get_path false) download = true
      · simp [ht, hf]
      · simp only [Bool.not_eq_true] at ht hf
        cases net with
        | failed errorName => simp [ht, hf]
        | missingStream => simp [ht, hf]
        | stream contentLength chunks exc =>
          simp [ht, hf, set_status_ongoing, hdl]
  · intro contentLength chunks exc hnt hnf
    unfold download_asset_file
    simp [hnt, hnf, set_status_ongoing, hdl]

/-- A unit already cancelled before its worker starts. -/
def cancelled_unit : FileDownload :=
  { asset_id := 7, url := "u", filename := "f.jpg", size_expected := 5,
    status := DownloadStatus.CANCELLED, directory := "lib/A" }

/-- A quiet environment for the cancellation witness. -/
def idle_env : DlAssetEnv :=
  { shouldContinue := fun _ => true
    urlFetch := fun _ => none
    poll := fun _ =>
      { all_done := false, any_error := false, size_downloaded := 0,
        res_error := none }
    mkdir := MkdirResult.ok
    noPerm := fun _ => false
    download_dir := "lib/A" }

/-- The empty filesystem. -/
def empty_fs : FS := fun _ => none

/-- C6, witness: a queued and cancelled asset id with a cancelled unit and
a live stream. -/
theorem cancel_before_start_zero_bytes_witness :
    ([7] : List Nat).contains 7 = true ∧
    cancelled_unit.status = DownloadStatus.CANCELLED ∧
    (((download_asset idle_env empty_fs [7] [7] 7 1).ret = false ∧
      (download_asset idle_env empty_fs [7] [7] 7 1).scheduled = [] ∧
      (download_asset idle_env empty_fs [7] [7] 7 1).fs = empty_fs) ∧
    set_status_ongoing DownloadStatus.CANCELLED = (DownloadStatus.CANCELLED, false) ∧
    (download_asset_file empty_fs (StreamResult.stream 5 [3, 2] none) none
      cancelled_unit).fs = empty_fs ∧
    (∀ (contentLength : Nat) (chunks : List Nat) (exc : Option (Nat × StreamExc)),
      check_exist_and_finished empty_fs (cancelled_unit.get_path true)
        cancelled_unit = false →
      check_exist_and_finished empty_fs (cancelled_unit.get_path false)
        cancelled_unit = false →
      (download_asset_file empty_fs (StreamResult.stream contentLength chunks exc)
          none cancelled_unit).ok = false ∧
      (download_asset_file empty_fs (StreamResult.stream contentLength chunks exc)
          none cancelled_unit).error = some ERR_USER_CANCEL_MSG ∧
      (download_asset_file empty_fs (StreamResult.stream contentLength chunks exc)
          none cancelled_unit).download.status = DownloadStatus.CANCELLED)) :=
  ⟨by decide, rfl,
    cancel_before_start_zero_bytes idle_env empty_fs [7] [7] 7 1
      (StreamResult.stream 5 [3, 2] none) none cancelled_unit (by decide) rfl⟩

/-- The concurrent inputs of download_asset_sync: successive reads of the
per-asset cancellation flag (set by the UI thread), the URL fetches, the
future polls, the makedirs outcome, the rename permissions, and the
resolved library directory. -/
structure SyncEnv where
  cancelFlag : Nat → Bool
  urlFetch : Nat → Option (List FileDownload × Nat)
  poll : Nat → PollResult
  mkdir : MkdirResult
  noPerm : String → Bool
  library_dir : String

/-- Modelled from the spec plus the addon.py call sites: the per-asset
download state asset_data.state.dl of the missing assets module (error
message, cancellation, progress, directory, expected byte total), together
with the read counters that sequence the concurrent flag reads. -/
structure SyncState where
  cancelReads : Nat := 0
  urlCalls : Nat := 0
  polls : Nat := 0
  hasErrorFlag : Bool := false
  dlError : Option String := none
  downloadedBytes : Nat := 0
  directory : String := ""
deriving DecidableEq

/-- addon.py lines 1104-1145 (_download_asset_loop_poll): poll the unit
futures until all are done, an error is recorded, or the cancel flag is
seen; the fuel bounds the otherwise unbounded poll loop. -/
def sync_poll_loop (env : SyncEnv) : Nat → Bool → SyncState → Bool × SyncState
  | 0, all_done, st => (all_done, st)
  | fuel + 1, all_done, st =>
    if all_done then (all_done, st)
    else
      let pr := env.poll st.polls
      let st := { st with polls := st.polls + 1 }
      let st := if pr.any_error then
          { st with hasErrorFlag := true, dlError := pr.res_error }
        else st
      let any_error := st.hasErrorFlag
      if pr.all_done && ! any_error then (true, st)
      else
        let is_cancelled := env.cancelFlag st.cancelReads
        let st := { st with cancelReads := st.cancelReads + 1 }
        if any_error || is_cancelled then (pr.all_done, st)
        else sync_poll_loop env fuel pr.all_done st

/-- addon.py lines 1147-1214 (_asset_download_loop): the URL-fetch retry
loop of the synchronous download; every iteration decrements retries, so
the fuel passed by download_asset_sync never runs out. -/
def sync_download_loop (env : SyncEnv) (pollFuel : Nat) :
    Nat → Int → Bool → Option (List FileDownload) → List (List FileDownload) →
      SyncState →
      Bool × Option (List FileDownload) × List (List FileDownload) × SyncState
  | 0, _, all_done, dl_list, sched, st => (all_done, dl_list, sched, st)
  | fuel + 1, retries, all_done, dl_list, sched, st =>
    if all_done || retries ≤ 0 then (all_done, dl_list, sched, st)
    else
      let c1 := env.cancelFlag st.cancelReads
      let st := { st with cancelReads := st.cancelReads + 1 }
      if c1 then (all_done, dl_list, sched, st)
      else
        let fetched := env.urlFetch st.urlCalls
        let st := { st with urlCalls := st.urlCalls + 1 }
        let st := { st with downloadedBytes := (fetched.map Prod.snd).getD 0 }
        let dl_list2 := fetched.map Prod.fst
        let c2 := env.cancelFlag st.cancelReads
        let st := { st with cancelReads := st.cancelReads + 1 }
        if c2 then (all_done, dl_list2, sched, st)
        else
          match fetched with
          | none =>
            let retries2 := retries - 1
            let st := if retries2 = 0 then
                { st with
                  hasErrorFlag := true
                  dlError := some "URL retrieve: No downloads" }
              else st
            sync_download_loop env pollFuel fuel retries2 all_done none sched st
          | some (l, _) =>
            let l2 := schedule_downloads st.directory l
            let r := sync_poll_loop env pollFuel all_done st
            sync_download_loop env pollFuel fuel (retries - 1) r.1 (some l2)
              (sched ++ [l2]) r.2

/-- Result of download_asset_sync: the returned bool, the per-asset
download state, the last unit list, the scheduled batches, the rename
outcome when the rename phase ran, and the filesystem. -/
structure SyncResult where
  ret : Bool
  raised : Bool := false
  st : SyncState
  dl_list : Option (List FileDownload) := none
  scheduled : List (List FileDownload) := []
  renameResult : Option (Bool × String) := none
  fs : FS

/-- addon.py lines 1231-1314 (download_asset_sync): the synchronous
per-asset orchestrator — cancel-before-start check, directory creation,
the download loop, and the rename phase whose failure is recorded in the
download state and reported as an asset-level failure. -/
def download_asset_sync (env : SyncEnv) (fs : FS) (asset_name : String)
    (pollFuel : Nat) : SyncResult :=
  -- state.dl.start() resets the download state; first cancel check
  if env.cancelFlag 0 then
    { ret := false, st := { cancelReads := 1 }, fs := fs }
  else
    let download_dir := path_join env.library_dir asset_name
    match env.mkdir with
    | MkdirResult.permissionError =>
      { ret := false
        st := { cancelReads := 1, hasErrorFlag := true,
                dlError := some ERR_OS_NO_PERMISSION }
        fs := fs }
    | MkdirResult.osError msg =>
      { ret := false
        st := { cancelReads := 1, hasErrorFlag := true, dlError := some msg }
        fs := fs }
    | MkdirResult.ok =>
      let r := sync_download_loop env pollFuel (MAX_DOWNLOAD_RETRIES + 1)
        (Int.ofNat MAX_DOWNLOAD_RETRIES) false none []
        { cancelReads := 1, directory := download_dir }
      let all_done := r.1
      let dl_list := r.2.1
      let sched := r.2.2.1
      let st2 := r.2.2.2
      let has_error := st2.hasErrorFlag
      let is_cancelled := env.cancelFlag st2.cancelReads
      let st2 := { st2 with cancelReads := st2.cancelReads + 1 }
      if ! all_done || has_error || is_cancelled then
        { ret := false, st := st2, dl_list := dl_list, scheduled := sched,
          fs := fs }
      else
        match dl_list with
        | none =>
          -- rename_downloads(None) would raise in the source
          { ret := false, raised := true, st := st2, scheduled := sched,
            fs := fs }
        | some l =>
          let rr := rename_downloads env.noPerm fs l
          if rr.all_successful = false then
            { ret := false
              st := { st2 with
                hasErrorFlag := true
                dlError := some rr.error_msg }
              dl_list := some rr.dl_list, scheduled := sched
              renameResult := some (rr.all_successful, rr.error_msg)
              fs := rr.fs }
          else
            { ret := true, st := st2, dl_list := some rr.dl_list
              scheduled := sched
              renameResult := some (rr.all_successful, rr.error_msg)
              fs := rr.fs }

/-- A unit whose download just completed (its temp file is pending rename). -/
def pending_unit : FileDownload :=
  { asset_id := 7, url := "u", filename := "f.jpg", size_expected := 5 }

/-- A one-iteration environment: the first URL fetch succeeds and the first
poll reports every unit done. -/
def one_shot_env : DlAssetEnv :=
  { shouldContinue := fun _ => true
    urlFetch := fun _ => some ([pending_unit], 100)
    poll := fun _ =>
      { all_done := true, any_error := false, size_downloaded := 5,
        res_error := none }
    mkdir := MkdirResult.ok
    noPerm := fun _ => false
    download_dir := "lib/A" }

/-- C8, counterexample: in the threaded download_asset, a rename failure
(missing temp file on an empty filesystem) marks the unit ERROR and
rename_downloads reports failure, yet download_asset ignores that result,
invokes the done callback without an error and returns True — the
asset-level operation does not report the failure. -/
theorem rename_failure_not_reported :
    (download_asset one_shot_env empty_fs [7] [] 7 1).renameResult =
      some (false, "Missing file: lib/A/f.jpgdl") ∧
    (download_asset one_shot_env empty_fs [7] [] 7 1).ret = true ∧
    (download_asset one_shot_env empty_fs [7] [] 7 1).doneCalls = [(7, none)] := by
  decide

/-- C8 (amended): renaming the completed temp files tolerates a
pre-existing final file — when only the final file exists the unit is
skipped, and when both exist the duplicate temp copy is discarded — while
a missing temp file or missing permission marks the unit ERROR and flips
all_successful; download_asset_sync then reports the failure for the whole
asset (returns False with the error recorded), whereas the threaded
download_asset ignores the rename result (see the counterexample). -/
theorem rename_downloads_amended (noPerm : String → Bool) (fs : FS)
    (download : FileDownload) (env : SyncEnv) (fs2 : FS) (asset_name : String)
    (pollFuel : Nat) (l : List FileDownload) (sched : List (List FileDownload))
    (st2 : SyncState) (herr : download.error = none) :
    (fs (download.get_path true) = none →
      (fs (download.get_path false)).isSome = true →
      rename_downloads noPerm fs [download] =
        { all_successful := true, error_msg := "", fs := fs,
          dl_list := [download] }) ∧
    ((fs (download.get_path true)).isSome = true →
      (fs (download.get_path false)).isSome = true →
      noPerm (download.get_path true) = false →
      rename_downloads noPerm fs [download] =
        { all_successful := true, error_msg := ""
          fs := fs_delete fs (download.get_path true)
          dl_list := [download] }) ∧
    (fs (download.get_path true) = none →
      fs (download.get_path false) = none →
      (rename_downloads noPerm fs [download]).all_successful = false ∧
      (rename_downloads noPerm fs [download]).dl_list =
        [{ download with
            status := DownloadStatus.ERROR
            error := some ("Missing file: " ++ download.get_path true) }]) ∧
    ((fs (download.get_path true)).isSome = true →
      noPerm (download.get_path true) = true →
      (rename_downloads noPerm fs [download]).all_successful = false ∧
      (rename_downloads noPerm fs [download]).dl_list =
        [{ download with
            status := DownloadStatus.ERROR
            error := some ("Lacking permission to rename downloaded file: " ++
              download.get_path true) }]) ∧
    (env.cancelFlag 0 = false → env.mkdir = MkdirResult.ok →
      sync_download_loop env pollFuel (MAX_DOWNLOAD_RETRIES + 1)
          (Int.ofNat MAX_DOWNLOAD_RETRIES) false none []
          { cancelReads := 1, directory := path_join env.library_dir asset_name } =
        (true, some l, sched, st2) →
      st2.hasErrorFlag = false →
      env.cancelFlag st2.cancelReads = false →
      (rename_downloads env.noPerm fs2 l).all_successful = false →
      (download_asset_sync env fs2 asset_name pollFuel).ret = false ∧
      (download_asset_sync env fs2 asset_name pollFuel).st.hasErrorFlag = true ∧
      (download_asset_sync env fs2 asset_name pollFuel).st.dlError =
        some ((rename_downloads env.noPerm fs2 l).error_msg)) := by
  refine ⟨?_, ?_, ?_, ?_, ?_⟩
  · intro ht hf
    simp [rename_downloads, rename_downloads_aux, ht, hf, pick_error_msg, herr]
  · intro ht hf hp
    have ht2 : ¬ fs (download.get_path true) = none := by
      intro h
      rw [h] at ht
      simp at ht
    simp [rename_downloads, rename_downloads_aux, os_rename, ht, ht2, hf, hp,
      pick_error_msg, herr]
  · intro ht hf
    simp [rename_downloads, rename_downloads_aux, os_rename, ht, hf,
      pick_error_msg]
  · intro ht hp
    have ht2 : ¬ fs (download.get_path true) = none := by
      intro h
      rw [h] at ht
      simp at ht
    simp [rename_downloads, rename_downloads_aux, os_rename, ht, ht2, hp,
      pick_error_msg]
  · intro hc0 hmk hloop hnoerr hc1 hrn
    unfold download_asset_sync
    rw [hmk]
    simp only [hc0, Bool.false_eq_true, if_false, hloop]
    simp [hnoerr, hc1, hrn]

/-- C8, witness: the missing-temp-file case of rename_downloads and the
failure propagation of download_asset_sync at the concrete one-iteration
environment. -/
theorem rename_downloads_amended_witness :
    pending_unit.error = none ∧
    (empty_fs (pending_unit.get_path true) = none ∧
      empty_fs (pending_unit.get_path false) = none ∧
      (rename_downloads (fun _ => false) empty_fs [pending_unit]).all_successful =
        false) ∧
    ((download_asset_sync
        { cancelFlag := fun _ => false
          urlFetch := fun _ => some ([pending_unit], 100)
          poll := fun _ =>
            { all_done := true, any_error := false, size_downloaded := 5,
              res_error := none }
          mkdir := MkdirResult.ok
          noPerm := fun _ => false
          library_dir := "lib" } empty_fs "A" 1).ret = false ∧
      (download_asset_sync
        { cancelFlag := fun _ => false
          urlFetch := fun _ => some ([pending_unit], 100)
          poll := fun _ =>
            { all_done := true, any_error := false, size_downloaded := 5,
              res_error := none }
          mkdir := MkdirResult.ok
          noPerm := fun _ => false
          library_dir := "lib" } empty_fs "A" 1).st.hasErrorFlag = true) := by
  have hparts := rename_downloads_amended (fun _ => false) empty_fs pending_unit
    { cancelFlag := fun _ => false
      urlFetch := fun _ => some ([pending_unit], 100)
      poll := fun _ =>
        { all_done := true, any_error := false, size_downloaded := 5,
          res_error := none }
      mkdir := MkdirResult.ok
      noPerm := fun _ => false
      library_dir := "lib" } empty_fs "A" 1
    [{ pending_unit with directory := "lib/A", status := DownloadStatus.WAITING }]
    [[{ pending_unit with directory := "lib/A", status := DownloadStatus.WAITING }]]
    { cancelReads := 3, urlCalls := 1, polls := 1, downloadedBytes := 100,
      directory := "lib/A" } rfl
  have h3 := hparts.2.2.1 rfl rfl
  have h5 := hparts.2.2.2.2 rfl rfl (by decide) rfl rfl (by decide)
  exact ⟨rfl, ⟨rfl, rfl, h3.1⟩, h5.1, h5.2.1⟩
